import Mathlib

/-!
# CefWindowX11: window lifecycle, event dispatch and focus restoration

A shallow embedding of `libcef/browser/native/window_x11.cc`.

* X resources (`::Window`, `::Atom`) are natural numbers, `x11::None` is `0`.
* The X connection is an explicit value `XDisplay` holding the answers of the
  read-only requests the code makes (`XQueryTree`, `XGetInputFocus`, ...).
* Every request that changes something outside the object, and every call
  into the owning browser, is recorded in order as a `Call`.
* A method returns the updated object together with the calls it issued.
  Where the code can stop on a `CHECK`/`DCHECK`, or a loop may not come to an
  end, the method returns an `Option` and `none` stands for "does not
  return"; loops carry an explicit bound on the number of iterations.
-/

namespace CefX11

/-! ## X11 protocol constants (X.h, Xatom.h, Xutil.h) -/

abbrev Window := Nat
abbrev Atom := Nat

namespace x11
abbrev None : Window := 0
abbrev CurrentTime : Nat := 0
abbrev FocusIn : Nat := 9
abbrev FocusOut : Nat := 10
end x11

abbrev ConfigureNotify : Nat := 22
abbrev PropertyNotify : Nat := 28
abbrev ClientMessage : Nat := 33
abbrev GenericEvent : Nat := 35

abbrev CWX : Nat := 1
abbrev CWY : Nat := 2
abbrev CWWidth : Nat := 4
abbrev CWHeight : Nat := 8
abbrev CWBackPixmap : Nat := 1
abbrev CWOverrideRedirect : Nat := 512

abbrev NoEventMask : Nat := 0
abbrev StructureNotifyMask : Nat := 131072
abbrev SubstructureNotifyMask : Nat := 524288
abbrev SubstructureRedirectMask : Nat := 1048576
abbrev FocusChangeMask : Nat := 2097152
abbrev PropertyChangeMask : Nat := 4194304

abbrev PPosition : Nat := 4
abbrev PWinGravity : Nat := 512
abbrev StaticGravity : Nat := 10
abbrev RevertToParent : Nat := 2
abbrev PropModeReplace : Nat := 0
abbrev XA_CARDINAL : Atom := 6
abbrev XA_WINDOW : Atom := 33

/-- The value of `ui::POST_DISPATCH_STOP_PROPAGATION`. -/
abbrev POST_DISPATCH_STOP_PROPAGATION : Nat := 2

/-! ## Atom names of the anonymous namespace -/

abbrev kAtom : String := "ATOM"
abbrev kWMDeleteWindow : String := "WM_DELETE_WINDOW"
abbrev kWMProtocols : String := "WM_PROTOCOLS"
abbrev kNetWMPid : String := "_NET_WM_PID"
abbrev kNetWMPing : String := "_NET_WM_PING"
abbrev kNetWMState : String := "_NET_WM_STATE"
abbrev kXdndProxy : String := "XdndProxy"

/-! ## Data model -/

/-- The `gfx::Rect` value: origin `(x, y)` and size `width x height`. -/
structure Rect where
  x : Int
  y : Int
  width : Int
  height : Int
deriving DecidableEq, Repr

/-- The default `gfx::Rect()`: the empty rectangle at the origin. -/
def Rect.empty : Rect := ⟨0, 0, 0, 0⟩

/-- The `origin()` accessor of `gfx::Rect`. -/
def Rect.origin (r : Rect) : Int × Int := (r.x, r.y)

/-- The `size()` accessor of `gfx::Rect`. -/
def Rect.size (r : Rect) : Int × Int := (r.width, r.height)

/-- The reply of a successful `XQueryTree`. -/
structure QueryTreeReply where
  root : Window
  parent : Window
  children : List Window
deriving DecidableEq, Repr

/-- The X connection (`xdisplay_`) and the ambient services, as seen during one
method call: every field is the answer the corresponding read-only request
gives. `none` is a failed request (status `0` / `false`). -/
structure XDisplay where
  /-- The `DefaultRootWindow(xdisplay_)` value. -/
  DefaultRootWindow : Window
  /-- The `gfx::GetAtom(name)` value. -/
  GetAtom : String → Atom
  /-- The `XQueryTree` reply for a window. -/
  XQueryTree : Window → Option QueryTreeReply
  /-- The window reported by `XGetInputFocus`. -/
  XGetInputFocus : Window
  /-- The `ui::IsWindowVisible` answer. -/
  IsWindowVisible : Window → Bool
  /-- The `ui::GetXIDProperty(window, name, &value)` answer. -/
  GetXIDProperty : Window → String → Option Window
  /-- The `ui::GetAtomArrayProperty(window, name, &list)` answer. -/
  GetAtomArrayProperty : Window → String → Option (List Atom)
  /-- The `XTranslateCoordinates(src, dest, x, y)` answer. -/
  XTranslateCoordinates : Window → Window → Int → Int → Option (Int × Int)
  /-- The handle `XCreateWindow` hands out. -/
  XCreateWindow : Window
  /-- The `getpid()` value. -/
  getpid : Nat
  /-- Whether `ui::PlatformEventSource::GetInstance()` is non-null. -/
  PlatformEventSource : Bool

/-- The `XEvent` union, flattened to the members the code reads.
`window` is `xany.window`, which is also `xclient.window`, `xproperty.window`,
`xfocus.window` and `xconfigure.event`. The words `data.l[i]` are kept as
64-bit patterns, so the conversions between `long` and `Atom` are the
identity. -/
structure XEvent where
  type : Nat
  window : Window
  /-- The `event` member of the `XIDeviceEvent` behind `xcookie.data`. -/
  xcookie_event : Window
  xconfigure_window : Window
  x : Int
  y : Int
  width : Int
  height : Int
  message_type : Atom
  format : Nat
  data_l : List Nat
  /-- The `xproperty.atom` member. -/
  atom : Atom
deriving DecidableEq, Repr

/-- The `XEvent ev = {0}` value. -/
def XEvent.zero : XEvent :=
  { type := 0, window := 0, xcookie_event := 0, xconfigure_window := 0,
    x := 0, y := 0, width := 0, height := 0,
    message_type := 0, format := 0, data_l := [0, 0, 0, 0, 0], atom := 0 }

/-- The members of `XSizeHints` that `Show` fills in. -/
structure XSizeHints where
  flags : Nat
  x : Int
  y : Int
  win_gravity : Nat
deriving DecidableEq, Repr

/-- The members of `XWindowChanges` that the code fills in (all start at `0`). -/
structure XWindowChanges where
  x : Int
  y : Int
  width : Int
  height : Int
deriving DecidableEq, Repr

/-- The `XWindowChanges changes = {0}` value. -/
def XWindowChanges.zero : XWindowChanges := ⟨0, 0, 0, 0⟩

/-- A request that changes state outside the object, or a call into the owning
browser or the task runner, in the order the code issues them. -/
inductive Call where
  | XCreateWindow (parent : Window) (x y width height : Int) (valuemask : Nat)
  | AddPlatformEventDispatcher
  | RemovePlatformEventDispatcher
  | XSelectInput (w : Window) (event_mask : Nat)
  | XFlush
  | XSetWMProtocols (w : Window) (protocols : List Atom)
  | XSetWMProperties (w : Window)
  | XChangeProperty (w : Window) (property type : Atom) (format mode : Nat)
      (data : List Nat)
  | XSendEvent (w : Window) (propagate : Bool) (event_mask : Nat) (ev : XEvent)
  | XSetWMNormalHints (w : Window) (hints : XSizeHints)
  | XMapWindow (w : Window)
  | XWithdrawWindow (w : Window) (screen_number : Nat)
  | XSetInputFocus (focus : Window) (revert_to : Nat) (time : Nat)
  | XConfigureWindow (w : Window) (value_mask : Nat) (changes : XWindowChanges)
  | XDestroyWindow (w : Window)
  | SetAtomArrayProperty (w : Window) (name type : String) (value : List Atom)
  | TryCloseBrowser
  | WindowDestroyed
  | NotifyMoveOrResizeStarted
  | SetFocus (focus : Bool)
  | PostDelayedTaskContinueFocus (delay_ms : Nat)
deriving DecidableEq, Repr

/-- The owning browser, seen through the one answer the window asks of it. -/
structure CefBrowserHostImpl where
  /-- The answer `TryCloseBrowser()` gives. -/
  TryCloseBrowser : Bool
deriving DecidableEq, Repr

/-- The window record: the data members of `CefWindowX11` (`xdisplay_` is
passed to each method as an `XDisplay`). -/
structure CefWindowX11 where
  browser_ : Option CefBrowserHostImpl
  parent_xwindow_ : Window
  xwindow_ : Window
  previously_focused_ : Window
  window_mapped_ : Bool
  bounds_ : Rect
  focus_pending_ : Bool
deriving DecidableEq, Repr

/-- What `DispatchEvent` leaves behind: the data members as last written,
whether `delete this` ran, the calls issued and the returned value. -/
structure Dispatched where
  self : CefWindowX11
  deleted : Bool
  calls : List Call
  result : Nat
deriving DecidableEq, Repr

/-! ## Helpers of the anonymous namespace -/

/-- The `FindEventTarget` helper. -/
def FindEventTarget (xev : XEvent) : Window :=
  if xev.type = GenericEvent then xev.xcookie_event else xev.window

/-- The `FindChild` helper. `some x11.None` is the failed query; `none` is the
`DCHECK_EQ(1U, nchildren)` not holding. -/
def FindChild (display : XDisplay) (window : Window) : Option Window :=
  match display.XQueryTree window with
  | none => some x11.None
  | some reply =>
    match reply.children with
    | [child] => some child
    | _ => none

/-- The loop of `FindToplevelParent`, at most `fuel` iterations. -/
def FindToplevelParent.loop (display : XDisplay) :
    Nat → Window → Window → Option Window
  | 0, _, _ => none
  | fuel + 1, window, top_level_window =>
    match display.XQueryTree window with
    | none => some top_level_window
    | some reply =>
      if reply.parent = reply.root then some window
      else FindToplevelParent.loop display fuel reply.parent window

/-- The `FindToplevelParent` helper; `none` when the loop is still running
after `fuel` iterations. -/
def FindToplevelParent (fuel : Nat) (display : XDisplay) (window : Window) :
    Option Window :=
  FindToplevelParent.loop display fuel window window

/-- The loop of `IsParentOfChildWindow`, at most `fuel` iterations. -/
def IsParentOfChildWindow.loop (display : XDisplay) (parent : Window) :
    Nat → Window → Option Bool
  | 0, _ => none
  | fuel + 1, child =>
    match display.XQueryTree child with
    | none => some false
    | some reply =>
      if reply.parent = reply.root then some (decide (reply.parent = parent))
      else if reply.parent = parent then some true
      else IsParentOfChildWindow.loop display parent fuel reply.parent

/-- The `IsParentOfChildWindow` helper; `none` when the loop is still running
after `fuel` iterations. -/
def IsParentOfChildWindow (fuel : Nat) (display : XDisplay)
    (parent child : Window) : Option Bool :=
  if parent = child then some false
  else IsParentOfChildWindow.loop display parent fuel child

/-! ## CefWindowX11 -/

/-- The constructor. `none` is the fatal `CHECK(xwindow_)`. -/
def CefWindowX11.new (browser : Option CefBrowserHostImpl)
    (parent_xwindow : Window) (bounds : Rect) (xdisplay : XDisplay) :
    Option (CefWindowX11 × List Call) :=
  let parent_xwindow_ :=
    if parent_xwindow = x11.None then xdisplay.DefaultRootWindow
    else parent_xwindow
  let xwindow_ := xdisplay.XCreateWindow
  if xwindow_ = 0 then none
  else
    some
      ({ browser_ := browser, parent_xwindow_ := parent_xwindow_,
         xwindow_ := xwindow_, previously_focused_ := 0,
         window_mapped_ := false, bounds_ := bounds,
         focus_pending_ := false },
       [Call.XCreateWindow parent_xwindow_ bounds.x bounds.y bounds.width
          bounds.height (CWBackPixmap ||| CWOverrideRedirect)]
        ++ (if xdisplay.PlatformEventSource then
              [Call.AddPlatformEventDispatcher] else [])
        ++ [Call.XSelectInput xwindow_
              (FocusChangeMask ||| StructureNotifyMask ||| PropertyChangeMask),
            Call.XFlush,
            Call.XSetWMProtocols xwindow_
              [xdisplay.GetAtom kWMDeleteWindow, xdisplay.GetAtom kNetWMPing],
            Call.XSetWMProperties xwindow_,
            Call.XChangeProperty xwindow_ (xdisplay.GetAtom kNetWMPid)
              XA_CARDINAL 32 PropModeReplace [xdisplay.getpid]])

/-- The destructor. `none` is `DCHECK(!xwindow_)` not holding. -/
def CefWindowX11.delete (self : CefWindowX11) (xdisplay : XDisplay) :
    Option (List Call) :=
  if self.xwindow_ ≠ 0 then none
  else if xdisplay.PlatformEventSource then
    some [Call.RemovePlatformEventDispatcher]
  else some []

/-- The event `Close` builds. -/
def CefWindowX11.closeEvent (self : CefWindowX11) (xdisplay : XDisplay) :
    XEvent :=
  { XEvent.zero with
    type := ClientMessage
    window := self.xwindow_
    message_type := xdisplay.GetAtom kWMProtocols
    format := 32
    data_l := [xdisplay.GetAtom kWMDeleteWindow, x11.CurrentTime, 0, 0, 0] }

/-- The `Close` method. -/
def CefWindowX11.Close (self : CefWindowX11) (xdisplay : XDisplay) :
    CefWindowX11 × List Call :=
  (self, [Call.XSendEvent self.xwindow_ false NoEventMask
            (self.closeEvent xdisplay)])

/-- The `Show` method. -/
def CefWindowX11.Show (fuel : Nat) (self : CefWindowX11)
    (xdisplay : XDisplay) : Option (CefWindowX11 × List Call) :=
  if self.xwindow_ = x11.None then some (self, [])
  else if self.window_mapped_ = false then
    let size_hints : XSizeHints :=
      { flags := PPosition ||| PWinGravity, x := self.bounds_.x,
        y := self.bounds_.y, win_gravity := StaticGravity }
    let mapping :=
      [Call.XSetWMNormalHints self.xwindow_ size_hints,
       Call.XMapWindow self.xwindow_, Call.XFlush]
    let self1 := { self with window_mapped_ := true }
    match FindChild xdisplay self.xwindow_ with
    | none => none
    | some child =>
      match FindToplevelParent fuel xdisplay self.xwindow_ with
      | none => none
      | some toplevel_window =>
        if toplevel_window = 0 then none
        else if child ≠ 0 ∧ toplevel_window ≠ 0 then
          let proxy_target :=
            (xdisplay.GetXIDProperty toplevel_window kXdndProxy).getD 0
          if proxy_target ≠ child then
            some (self1, mapping ++
              [Call.XChangeProperty toplevel_window
                 (xdisplay.GetAtom kXdndProxy) XA_WINDOW 32 PropModeReplace
                 [child],
               Call.XChangeProperty child (xdisplay.GetAtom kXdndProxy)
                 XA_WINDOW 32 PropModeReplace [child]])
          else some (self1, mapping)
        else some (self1, mapping)
  else some (self, [])

/-- The `Hide` method. -/
def CefWindowX11.Hide (self : CefWindowX11) : CefWindowX11 × List Call :=
  if self.xwindow_ = x11.None then (self, [])
  else if self.window_mapped_ then
    ({ self with window_mapped_ := false },
     [Call.XWithdrawWindow self.xwindow_ 0])
  else (self, [])

/-- The `Focus` method. -/
def CefWindowX11.Focus (self : CefWindowX11) (xdisplay : XDisplay) :
    Option (CefWindowX11 × List Call) :=
  if self.xwindow_ = x11.None ∨ self.window_mapped_ = false then
    some (self, [])
  else
    let focused := xdisplay.XGetInputFocus
    if self.browser_.isSome then
      match FindChild xdisplay self.xwindow_ with
      | none => none
      | some child =>
        if child ≠ 0 ∧ focused ≠ child ∧ xdisplay.IsWindowVisible child then
          let focusChild :=
            [Call.XSetInputFocus child RevertToParent x11.CurrentTime]
          if focused ≠ self.xwindow_ then
            some ({ self with previously_focused_ := focused }, focusChild)
          else some (self, focusChild)
        else some (self, [])
    else if focused ≠ self.xwindow_ then
      some ({ self with previously_focused_ := focused },
            [Call.XSetInputFocus self.xwindow_ RevertToParent x11.CurrentTime])
    else some (self, [])

/-- The `Unfocus` method. -/
def CefWindowX11.Unfocus (fuel : Nat) (self : CefWindowX11)
    (xdisplay : XDisplay) : Option (CefWindowX11 × List Call) :=
  if self.xwindow_ = x11.None ∨ self.window_mapped_ = false then
    some (self, [])
  else
    let focused := xdisplay.XGetInputFocus
    if focused = 0 then some (self, [])
    else
      match FindToplevelParent fuel xdisplay self.xwindow_ with
      | none => none
      | some toplevel =>
        if toplevel = self.xwindow_ then some (self, [])
        else
          match (if self.browser_.isSome then
                   FindChild xdisplay self.xwindow_
                 else some x11.None) with
          | none => none
          | some child =>
            if focused = self.xwindow_ ∨ focused = child then
              if self.previously_focused_ ≠ 0 then
                match IsParentOfChildWindow fuel xdisplay toplevel
                    self.previously_focused_ with
                | none => none
                | some true =>
                  some (self, [Call.XSetInputFocus self.previously_focused_
                                 RevertToParent x11.CurrentTime])
                | some false =>
                  some (self, [Call.XSetInputFocus toplevel RevertToParent
                                 x11.CurrentTime])
              else
                some (self, [Call.XSetInputFocus toplevel RevertToParent
                               x11.CurrentTime])
            else some (self, [])

/-- The `SetBounds` method. -/
def CefWindowX11.SetBounds (self : CefWindowX11) (bounds : Rect) :
    CefWindowX11 × List Call :=
  if self.xwindow_ = x11.None then (self, [])
  else
    let origin_changed := decide (self.bounds_.origin ≠ bounds.origin)
    let size_changed := decide (self.bounds_.size ≠ bounds.size)
    let changes := XWindowChanges.zero
    let value_mask := 0
    let (changes, value_mask) :=
      if size_changed then
        ({ changes with width := bounds.width, height := bounds.height },
         CWHeight ||| CWWidth)
      else (changes, value_mask)
    let (changes, value_mask) :=
      if origin_changed then
        ({ changes with x := bounds.x, y := bounds.y },
         value_mask ||| (CWX ||| CWY))
      else (changes, value_mask)
    if value_mask ≠ 0 then
      (self, [Call.XConfigureWindow self.xwindow_ value_mask changes])
    else (self, [])

/-- The `GetBoundsInScreen` method: the record as the call leaves it, and the
rectangle returned. -/
def CefWindowX11.GetBoundsInScreen (self : CefWindowX11)
    (xdisplay : XDisplay) : CefWindowX11 × Rect :=
  match xdisplay.XTranslateCoordinates self.xwindow_
      xdisplay.DefaultRootWindow 0 0 with
  | some (x, y) => (self, ⟨x, y, self.bounds_.size.1, self.bounds_.size.2⟩)
  | none => (self, Rect.empty)

/-- The `CanDispatchEvent` method. -/
def CefWindowX11.CanDispatchEvent (self : CefWindowX11) (event : XEvent) :
    Bool :=
  decide (FindEventTarget event = self.xwindow_)

/-- The `DispatchEvent` method. `none` is a `DCHECK` not holding. -/
def CefWindowX11.DispatchEvent (self : CefWindowX11) (xdisplay : XDisplay)
    (xev : XEvent) : Option Dispatched :=
  let done (s : CefWindowX11) (calls : List Call) : Dispatched :=
    { self := s, deleted := false, calls := calls,
      result := POST_DISPATCH_STOP_PROPAGATION }
  if xev.type = ConfigureNotify then
    if self.xwindow_ ≠ xev.window ∨ self.xwindow_ ≠ xev.xconfigure_window then
      none
    else
      let bounds : Rect := ⟨xev.x, xev.y, xev.width, xev.height⟩
      let self1 := { self with bounds_ := bounds }
      if self.browser_.isSome then
        match FindChild xdisplay self.xwindow_ with
        | none => none
        | some child =>
          if child ≠ 0 then
            some (done self1
              [Call.XConfigureWindow child (CWHeight ||| CWWidth)
                 { XWindowChanges.zero with
                   width := bounds.width, height := bounds.height },
               Call.NotifyMoveOrResizeStarted])
          else some (done self1 [])
      else some (done self1 [])
  else if xev.type = ClientMessage then
    let message_type := xev.message_type
    if message_type = xdisplay.GetAtom kWMProtocols then
      let protocol : Atom := xev.data_l.getD 0 0
      if protocol = xdisplay.GetAtom kWMDeleteWindow then
        let asked :=
          if self.browser_.isSome then [Call.TryCloseBrowser] else []
        if self.browser_.all (fun browser => browser.TryCloseBrowser) then
          let self1 := { self with xwindow_ := x11.None }
          let notified :=
            if self.browser_.isSome then [Call.WindowDestroyed] else []
          match self1.delete xdisplay with
          | none => none
          | some released =>
            some { self := self1, deleted := true,
                   calls := asked ++ [Call.XDestroyWindow self.xwindow_]
                     ++ notified ++ released,
                   result := POST_DISPATCH_STOP_PROPAGATION }
        else some (done self asked)
      else if protocol = xdisplay.GetAtom kNetWMPing then
        let reply_event := { xev with window := self.parent_xwindow_ }
        some (done self
          [Call.XSendEvent reply_event.window false
             (SubstructureRedirectMask ||| SubstructureNotifyMask) reply_event,
           Call.XFlush])
      else some (done self [])
    else some (done self [])
  else if xev.type = x11.FocusIn then
    if self.focus_pending_ = false then
      some (done { self with focus_pending_ := true }
        [Call.PostDelayedTaskContinueFocus 100])
    else some (done self [])
  else if xev.type = x11.FocusOut then
    if self.focus_pending_ then
      some (done { self with focus_pending_ := false } [])
    else some (done self [])
  else if xev.type = PropertyNotify then
    let changed_atom := xev.atom
    if changed_atom = xdisplay.GetAtom kNetWMState then
      if self.browser_.isSome then
        match FindChild xdisplay self.xwindow_ with
        | none => none
        | some child =>
          if child ≠ 0 then
            match xdisplay.GetAtomArrayProperty self.xwindow_ kNetWMState with
            | some (atom :: atoms) =>
              some (done self
                [Call.SetAtomArrayProperty child kNetWMState "ATOM"
                   (atom :: atoms)])
            | _ =>
              some (done self
                [Call.XChangeProperty child (xdisplay.GetAtom kNetWMState)
                   (xdisplay.GetAtom kAtom) 32 PropModeReplace []])
          else some (done self [])
      else some (done self [])
    else some (done self [])
  else some (done self [])

/-- The `ContinueFocus` method. -/
def CefWindowX11.ContinueFocus (self : CefWindowX11) :
    CefWindowX11 × List Call :=
  if self.focus_pending_ = false then (self, [])
  else
    ({ self with focus_pending_ := false },
     if self.browser_.isSome then [Call.SetFocus true] else [])

/-- The calls `DispatchEvent` issues for a close request that goes ahead. -/
def closeCalls (w : CefWindowX11) (d : XDisplay) : List Call :=
  (if w.browser_.isSome then [Call.TryCloseBrowser] else [])
    ++ [Call.XDestroyWindow w.xwindow_]
    ++ (if w.browser_.isSome then [Call.WindowDestroyed] else [])
    ++ (if d.PlatformEventSource then [Call.RemovePlatformEventDispatcher]
        else [])

/-- The calls `Show` issues for a window not yet mapped, whose child and
top-level ancestor were found to be `child` and `toplevel_window`. -/
def showCalls (w : CefWindowX11) (d : XDisplay)
    (child toplevel_window : Window) : List Call :=
  [Call.XSetWMNormalHints w.xwindow_
     { flags := PPosition ||| PWinGravity, x := w.bounds_.x,
       y := w.bounds_.y, win_gravity := StaticGravity },
   Call.XMapWindow w.xwindow_, Call.XFlush]
  ++ (if child ≠ 0
        ∧ (d.GetXIDProperty toplevel_window kXdndProxy).getD 0 ≠ child then
        [Call.XChangeProperty toplevel_window (d.GetAtom kXdndProxy)
           XA_WINDOW 32 PropModeReplace [child],
         Call.XChangeProperty child (d.GetAtom kXdndProxy) XA_WINDOW 32
           PropModeReplace [child]]
      else [])

/-! ## The UI thread -/

/-- Whether a call posts the delayed `ContinueFocus` task. -/
def Call.isPostDelayedTask : Call → Bool
  | .PostDelayedTaskContinueFocus _ => true
  | _ => false

/-- Whether a call is an `XMapWindow` request. -/
def Call.isXMapWindow : Call → Bool
  | .XMapWindow _ => true
  | _ => false

/-- Whether a call is an `XDestroyWindow` request. -/
def Call.isXDestroyWindow : Call → Bool
  | .XDestroyWindow _ => true
  | _ => false

/-- Whether a call is an `XSetInputFocus` request. -/
def Call.isXSetInputFocus : Call → Bool
  | .XSetInputFocus _ _ _ => true
  | _ => false

/-- Whether a call is an `XConfigureWindow` request. -/
def Call.isXConfigureWindow : Call → Bool
  | .XConfigureWindow _ _ _ => true
  | _ => false

/-- Whether a call writes a property of window `w` (`XChangeProperty` or
`ui::SetAtomArrayProperty`). -/
def Call.isPropertyWriteOn (w : Window) : Call → Bool
  | .XChangeProperty target _ _ _ _ _ => decide (target = w)
  | .SetAtomArrayProperty target _ _ _ => decide (target = w)
  | _ => false

/-- Whether a call is an `XSendEvent` request to window `w`. -/
def Call.isXSendEventTo (w : Window) : Call → Bool
  | .XSendEvent target _ _ _ => decide (target = w)
  | _ => false

/-- Whether a call is an `XSendEvent` request. -/
def Call.isXSendEvent : Call → Bool
  | .XSendEvent _ _ _ _ => true
  | _ => false

/-- Whether a call is the owner's `SetFocus`. -/
def Call.isSetFocus : Call → Bool
  | .SetFocus _ => true
  | _ => false

/-- Modelled from the spec: the single-threaded event queue of the UI thread
(`CEF_POST_DELAYED_TASK` of `thread_util.h` and the platform event source are
not in the sources at hand). `window` is the registered dispatcher, `none`
once `delete this` has run; `delayed` counts the `ContinueFocus` tasks posted
and not yet run; `log` holds every call issued so far. -/
structure UIThread where
  window : Option CefWindowX11
  delayed : Nat
  log : List Call
deriving DecidableEq, Repr

/-- What the UI thread can do next: hand an event to the dispatcher, or run
one delayed task that has come due. -/
inductive UIStep where
  | event (xdisplay : XDisplay) (xev : XEvent)
  | runDelayedTask

/-- Modelled from the spec: one step of the event queue. An event reaches
`DispatchEvent` only while the window is registered and `CanDispatchEvent`
accepts it. A delayed task is bound to a weak pointer, so it runs
`ContinueFocus` only while the window is alive. `none` is a `DCHECK` of
`DispatchEvent` not holding. -/
def UIThread.step (t : UIThread) : UIStep → Option UIThread
  | .event xdisplay xev =>
    match t.window with
    | none => some t
    | some w =>
      if w.CanDispatchEvent xev then
        match w.DispatchEvent xdisplay xev with
        | none => none
        | some r =>
          some { window := if r.deleted then none else some r.self,
                 delayed := t.delayed + r.calls.countP Call.isPostDelayedTask,
                 log := t.log ++ r.calls }
      else some t
  | .runDelayedTask =>
    match t.delayed with
    | 0 => some t
    | n + 1 =>
      match t.window with
      | none => some { t with delayed := n }
      | some w =>
        some { window := some w.ContinueFocus.1, delayed := n,
               log := t.log ++ w.ContinueFocus.2 }

/-- Modelled from the spec: the event queue run over a sequence of steps. -/
def UIThread.run (t : UIThread) : List UIStep → Option UIThread
  | [] => some t
  | s :: rest => (t.step s).bind fun t1 => t1.run rest

/-- The UI thread right after a window has been constructed. -/
def UIThread.fresh (w : CefWindowX11) : UIThread :=
  { window := some w, delayed := 0, log := [] }

/-- A step that hands over a `FocusIn` event. -/
def UIStep.isFocusIn : UIStep → Bool
  | .event _ xev => decide (xev.type = x11.FocusIn)
  | .runDelayedTask => false

/-- A step that hands over a `FocusOut` event. -/
def UIStep.isFocusOut : UIStep → Bool
  | .event _ xev => decide (xev.type = x11.FocusOut)
  | .runDelayedTask => false

/-- A step of a focus sequence: a `FocusIn` event, a `FocusOut` event, or a
delayed task running. -/
def UIStep.isFocusStep : UIStep → Bool
  | .event _ xev => decide (xev.type = x11.FocusIn ∨ xev.type = x11.FocusOut)
  | .runDelayedTask => true

/-! ## The window tree, in the words of the specification -/

/-- The parent a successful tree query reports for a window. -/
def XDisplay.parentOf (d : XDisplay) (w : Window) : Option Window :=
  (d.XQueryTree w).map fun reply => reply.parent

/-- The window reached from `w` by going to the parent `k` times. -/
def XDisplay.nthAncestor (d : XDisplay) : Nat → Window → Option Window
  | 0, w => some w
  | k + 1, w => (d.parentOf w).bind (d.nthAncestor k)

/-- In the window tree, `w` is a proper descendant of `a`: `a` is reached from
`w` by going to the parent once or more. -/
def XDisplay.IsProperDescendant (d : XDisplay) (w a : Window) : Prop :=
  ∃ k, d.nthAncestor (k + 1) w = some a

/-- The tree queries of `d` describe a window tree under the display's root:
`None` is not a window, every reply names the display's root, the root has no
parent, and `depth` falls strictly from a window to its parent. -/
structure XDisplay.IsWindowTree (d : XDisplay) (depth : Window → Nat) :
    Prop where
  none_invalid : d.XQueryTree x11.None = none
  root_eq : ∀ w reply, d.XQueryTree w = some reply →
    reply.root = d.DefaultRootWindow
  root_parent : ∀ reply, d.XQueryTree d.DefaultRootWindow = some reply →
    reply.parent = x11.None
  parent_depth : ∀ w reply, d.XQueryTree w = some reply →
    depth reply.parent < depth w

/-! ## A sample display, for worked cases

The root window is `1`; window `3` is a top-level window with the single
children `5` and `9`; window `5` has the single child `7`; window `4` is
another top-level window. -/

/-- The tree queries of the sample display. -/
def sampleTree : Window → Option QueryTreeReply
  | 1 => some ⟨1, 0, [3, 4]⟩
  | 3 => some ⟨1, 1, [5, 9]⟩
  | 4 => some ⟨1, 1, []⟩
  | 5 => some ⟨1, 3, [7]⟩
  | 7 => some ⟨1, 5, []⟩
  | 9 => some ⟨1, 3, []⟩
  | _ => none

/-- The atoms of the sample display. -/
def sampleAtom (name : String) : Atom :=
  if name = kWMProtocols then 100
  else if name = kWMDeleteWindow then 101
  else if name = kNetWMPing then 102
  else if name = kNetWMState then 103
  else if name = kNetWMPid then 104
  else if name = kXdndProxy then 105
  else if name = kAtom then 4
  else 200

/-- The sample display, with input focus on `focused`. -/
def sampleDisplay (focused : Window) : XDisplay :=
  { DefaultRootWindow := 1
    GetAtom := sampleAtom
    XQueryTree := sampleTree
    XGetInputFocus := focused
    IsWindowVisible := fun _ => true
    GetXIDProperty := fun _ _ => none
    GetAtomArrayProperty := fun _ _ => none
    XTranslateCoordinates := fun _ _ x y => some (x, y)
    XCreateWindow := 5
    getpid := 4242
    PlatformEventSource := true }

/-- The depth of each window of the sample display. -/
def sampleDepth : Window → Nat
  | 1 => 1
  | 3 => 2
  | 4 => 2
  | 5 => 3
  | 7 => 4
  | 9 => 3
  | _ => 0

/-- A sample window record on handle `5` under window `3`. -/
def sampleWindow (browser : Option CefBrowserHostImpl) (mapped : Bool)
    (previously_focused : Window) : CefWindowX11 :=
  { browser_ := browser, parent_xwindow_ := 3, xwindow_ := 5,
    previously_focused_ := previously_focused, window_mapped_ := mapped,
    bounds_ := ⟨10, 20, 300, 200⟩, focus_pending_ := false }

/-- A sample event of the given type, addressed to window `5`. -/
def sampleEvent (type : Nat) : XEvent :=
  { XEvent.zero with type := type, window := 5 }

/-- A sample `PropertyNotify` for `_NET_WM_STATE`, addressed to window `5`. -/
def sampleStateEvent : XEvent :=
  { XEvent.zero with type := PropertyNotify, window := 5, atom := 103 }

/-- A sample `_NET_WM_PING` message, addressed to window `5`. -/
def samplePingEvent : XEvent :=
  { XEvent.zero with
    type := ClientMessage, window := 5, message_type := 100, format := 32,
    data_l := [102, 77, 5, 0, 0] }

/-- A sample `ConfigureNotify` for window `5`. -/
def sampleConfigureEvent : XEvent :=
  { XEvent.zero with
    type := ConfigureNotify, window := 5, xconfigure_window := 5,
    x := 1, y := 2, width := 640, height := 480 }

/-- The sample display with window `5` reporting the state atoms `atoms`. -/
def sampleDisplayWithState (atoms : Option (List Atom)) : XDisplay :=
  { sampleDisplay 4 with GetAtomArrayProperty := fun _ _ => atoms }

/-- A sample focus sequence: `FocusIn`, `FocusOut`, `FocusIn`, with no
delayed task running in between. -/
def sampleFocusInOutIn : List UIStep :=
  [.event (sampleDisplay 4) (sampleEvent x11.FocusIn),
   .event (sampleDisplay 4) (sampleEvent x11.FocusOut),
   .event (sampleDisplay 4) (sampleEvent x11.FocusIn)]

/-- A sample focus sequence: one `FocusIn`, then the delayed task runs. -/
def sampleFocusInThenTask : List UIStep :=
  [.event (sampleDisplay 4) (sampleEvent x11.FocusIn), .runDelayedTask]

/-- The one call `DispatchEvent` issues to forward the `_NET_WM_STATE` of
the window to `child`. -/
def stateForwardCall (w : CefWindowX11) (d : XDisplay) (child : Window) :
    Call :=
  match d.GetAtomArrayProperty w.xwindow_ kNetWMState with
  | some (atom :: atoms) =>
    Call.SetAtomArrayProperty child kNetWMState "ATOM" (atom :: atoms)
  | _ =>
    Call.XChangeProperty child (d.GetAtom kNetWMState) (d.GetAtom kAtom) 32
      PropModeReplace []

/-- A sample window record on handle `8`, which the sample display does not
know: every tree query on it fails. -/
def sampleLostWindow : CefWindowX11 :=
  { sampleWindow (some ⟨true⟩) true 0 with xwindow_ := 8 }

/-! ## Shared lemmas: the close request -/

theorem DispatchEvent_close_allowed (w : CefWindowX11) (d : XDisplay)
    (xev : XEvent) (htype : xev.type = ClientMessage)
    (hmsg : xev.message_type = d.GetAtom kWMProtocols)
    (hproto : xev.data_l.getD 0 0 = d.GetAtom kWMDeleteWindow)
    (hgrant : ∀ b, w.browser_ = some b → b.TryCloseBrowser = true) :
    w.DispatchEvent d xev =
      some { self := { w with xwindow_ := x11.None }, deleted := true,
             calls := closeCalls w d,
             result := POST_DISPATCH_STOP_PROPAGATION } := by
  have hall : w.browser_.all (fun browser => browser.TryCloseBrowser) = true := by
    cases hb : w.browser_ with
    | none => rfl
    | some b => simpa using hgrant b hb
  unfold CefWindowX11.DispatchEvent
  simp only [htype, hmsg, hproto, hall, CefWindowX11.delete, closeCalls]
  cases d.PlatformEventSource <;> simp

theorem DispatchEvent_close_vetoed (w : CefWindowX11) (d : XDisplay)
    (xev : XEvent) (b : CefBrowserHostImpl) (htype : xev.type = ClientMessage)
    (hmsg : xev.message_type = d.GetAtom kWMProtocols)
    (hproto : xev.data_l.getD 0 0 = d.GetAtom kWMDeleteWindow)
    (hb : w.browser_ = some b) (hveto : b.TryCloseBrowser = false) :
    w.DispatchEvent d xev =
      some { self := w, deleted := false, calls := [Call.TryCloseBrowser],
             result := POST_DISPATCH_STOP_PROPAGATION } := by
  unfold CefWindowX11.DispatchEvent
  simp only [htype, hmsg, hproto, hb]
  simp [hveto]

theorem UIThread.run_deleted (t : UIThread) (steps : List UIStep)
    (hdead : t.window = none) :
    ∃ t2, t.run steps = some t2 ∧ t2.window = none ∧ t2.log = t.log := by
  induction steps generalizing t with
  | nil => exact ⟨t, rfl, hdead, rfl⟩
  | cons s rest ih =>
    cases s with
    | event d xev =>
      have hstep : t.step (.event d xev) = some t := by
        simp [UIThread.step, hdead]
      simpa [UIThread.run, hstep] using ih t hdead
    | runDelayedTask =>
      cases hn : t.delayed with
      | zero =>
        have hstep : t.step .runDelayedTask = some t := by
          simp [UIThread.step, hn]
        simpa [UIThread.run, hstep] using ih t hdead
      | succ n =>
        have hstep : t.step .runDelayedTask = some { t with delayed := n } := by
          simp [UIThread.step, hn, hdead]
        obtain ⟨t2, h1, h2, h3⟩ := ih { t with delayed := n } hdead
        exact ⟨t2, by simp [UIThread.run, hstep, h1], h2, h3⟩

theorem Show_unmapped (fuel : Nat) (w : CefWindowX11) (d : XDisplay)
    (child top : Window) (hvalid : w.xwindow_ ≠ x11.None)
    (hm : w.window_mapped_ = false)
    (hC : FindChild d w.xwindow_ = some child)
    (hT : FindToplevelParent fuel d w.xwindow_ = some top)
    (htop : top ≠ x11.None) :
    w.Show fuel d
      = some ({ w with window_mapped_ := true }, showCalls w d child top) := by
  have hv : ¬ w.xwindow_ = 0 := hvalid
  have ht : ¬ top = 0 := htop
  unfold CefWindowX11.Show showCalls
  simp only [hm, hC, hT]
  by_cases hchild : child = 0
  · simp [hv, ht, hchild]
  · by_cases hproxy : (d.GetXIDProperty top kXdndProxy).getD 0 = child
    · simp [hv, ht, hchild, hproxy]
    · simp [hv, ht, hchild, hproxy]

theorem DispatchEvent_FocusIn (w : CefWindowX11) (d : XDisplay) (xev : XEvent)
    (htype : xev.type = x11.FocusIn) :
    w.DispatchEvent d xev =
      some (if w.focus_pending_ = false then
              { self := { w with focus_pending_ := true }, deleted := false,
                calls := [Call.PostDelayedTaskContinueFocus 100],
                result := POST_DISPATCH_STOP_PROPAGATION }
            else
              { self := w, deleted := false, calls := [],
                result := POST_DISPATCH_STOP_PROPAGATION }) := by
  unfold CefWindowX11.DispatchEvent
  simp only [htype]
  cases w.focus_pending_ <;> simp

theorem DispatchEvent_FocusOut (w : CefWindowX11) (d : XDisplay) (xev : XEvent)
    (htype : xev.type = x11.FocusOut) :
    w.DispatchEvent d xev =
      some { self := { w with focus_pending_ := false }, deleted := false,
             calls := [], result := POST_DISPATCH_STOP_PROPAGATION } := by
  unfold CefWindowX11.DispatchEvent
  simp only [htype]
  cases hp : w.focus_pending_
  · have hw : ({ w with focus_pending_ := false } : CefWindowX11) = w := by
      cases w
      simp_all
    simp [hw]
  · simp

/-- The measure behind the bound on delayed tasks: the tasks not yet run,
plus one while the pending flag is clear. -/
theorem UIThread.focus_steps_measure (steps : List UIStep)
    (hfocus : ∀ s ∈ steps, s.isFocusStep = true) (t : UIThread)
    (w : CefWindowX11) (hw : t.window = some w) :
    ∃ t1 w1, t.run steps = some t1 ∧ t1.window = some w1
      ∧ t1.delayed + (if w1.focus_pending_ then 0 else 1)
          ≤ t.delayed + (if w.focus_pending_ then 0 else 1)
            + steps.countP UIStep.isFocusOut := by
  induction steps generalizing t w with
  | nil => exact ⟨t, w, rfl, hw, by simp⟩
  | cons s rest ih =>
    have hrest : ∀ s1 ∈ rest, s1.isFocusStep = true := fun s1 h1 =>
      hfocus s1 (List.mem_cons_of_mem _ h1)
    have hs : s.isFocusStep = true := hfocus s (List.mem_cons_self _ _)
    -- one step keeps the window alive and moves the measure as stated
    have hone : ∃ t0 w0, t.step s = some t0 ∧ t0.window = some w0
        ∧ t0.delayed + (if w0.focus_pending_ then 0 else 1)
            ≤ t.delayed + (if w.focus_pending_ then 0 else 1)
              + (if s.isFocusOut then 1 else 0) := by
      cases s with
      | event d xev =>
        by_cases hcan : w.CanDispatchEvent xev = true
        · have hty : xev.type = x11.FocusIn ∨ xev.type = x11.FocusOut := by
            simpa [UIStep.isFocusStep] using hs
          rcases hty with hin | hout
          · have hnot : ¬ xev.type = x11.FocusOut := by
              rw [hin]
              decide
            cases hp : w.focus_pending_
            · refine ⟨{ window := some { w with focus_pending_ := true },
                        delayed := t.delayed + 1,
                        log := t.log ++ [Call.PostDelayedTaskContinueFocus 100] },
                { w with focus_pending_ := true }, ?_, rfl, ?_⟩
              · simp [UIThread.step, hw, hcan,
                  DispatchEvent_FocusIn w d xev hin, hp,
                  Call.isPostDelayedTask]
              · simp [UIStep.isFocusOut, hnot]
            · refine ⟨t, w, ?_, hw, ?_⟩
              · simp [UIThread.step, hw, hcan,
                  DispatchEvent_FocusIn w d xev hin, hp]
                cases t
                simp_all
              · simp [UIStep.isFocusOut, hnot, hp]
          · refine ⟨{ window := some { w with focus_pending_ := false },
                      delayed := t.delayed, log := t.log },
              { w with focus_pending_ := false }, ?_, rfl, ?_⟩
            · simp [UIThread.step, hw, hcan,
                DispatchEvent_FocusOut w d xev hout]
            · cases hp : w.focus_pending_ <;> simp [UIStep.isFocusOut, hout]
        · refine ⟨t, w, ?_, hw, by omega⟩
          simp [UIThread.step, hw, hcan]
      | runDelayedTask =>
        cases hn : t.delayed with
        | zero =>
          refine ⟨t, w, ?_, hw, by omega⟩
          simp [UIThread.step, hn]
        | succ n =>
          refine ⟨{ window := some w.ContinueFocus.1, delayed := n,
                    log := t.log ++ w.ContinueFocus.2 },
            w.ContinueFocus.1, ?_, rfl, ?_⟩
          · simp only [UIThread.step, hn, hw]
          · cases hp : w.focus_pending_ <;>
              simp [CefWindowX11.ContinueFocus, hp, UIStep.isFocusOut]
    obtain ⟨t0, w0, hstep, hw0, hle0⟩ := hone
    obtain ⟨t1, w1, hrun, hw1, hle1⟩ := ih hrest t0 w0 hw0
    refine ⟨t1, w1, by simp [UIThread.run, hstep, hrun], hw1, ?_⟩
    rw [List.countP_cons]
    omega

/-! ## Shared lemmas: walking up the window tree -/

theorem XDisplay.nthAncestor_succ (d : XDisplay) (k : Nat) (w : Window) :
    d.nthAncestor (k + 1) w
      = (d.XQueryTree w).bind fun reply => d.nthAncestor k reply.parent := by
  cases h : d.XQueryTree w <;> simp [XDisplay.nthAncestor, XDisplay.parentOf, h]

theorem XDisplay.IsWindowTree.nthAncestor_depth {d : XDisplay}
    {depth : Window → Nat} (htree : d.IsWindowTree depth) (k : Nat)
    (w a : Window) (h : d.nthAncestor k w = some a) :
    depth a + k ≤ depth w := by
  induction k generalizing w with
  | zero =>
    simp only [XDisplay.nthAncestor, Option.some.injEq] at h
    subst h
    exact Nat.le_refl _
  | succ k ih =>
    rw [XDisplay.nthAncestor_succ] at h
    cases hq : d.XQueryTree w with
    | none => simp [hq] at h
    | some reply =>
      simp only [hq, Option.some_bind] at h
      have h1 := ih reply.parent h
      have h2 := htree.parent_depth w reply hq
      omega

theorem XDisplay.IsWindowTree.not_descendant_self {d : XDisplay}
    {depth : Window → Nat} (htree : d.IsWindowTree depth) (w : Window) :
    ¬ d.IsProperDescendant w w := by
  rintro ⟨k, hk⟩
  have := htree.nthAncestor_depth (k + 1) w w hk
  omega

theorem XDisplay.IsWindowTree.nthAncestor_root {d : XDisplay}
    {depth : Window → Nat} (htree : d.IsWindowTree depth) (top : Window)
    (hroot : top ≠ d.DefaultRootWindow) (hnone : top ≠ x11.None) (k : Nat) :
    d.nthAncestor k d.DefaultRootWindow ≠ some top := by
  cases k with
  | zero =>
    simp only [XDisplay.nthAncestor, ne_eq, Option.some.injEq]
    exact fun h => hroot h.symm
  | succ k =>
    rw [XDisplay.nthAncestor_succ]
    cases hq : d.XQueryTree d.DefaultRootWindow with
    | none => simp
    | some reply =>
      simp only [Option.some_bind, htree.root_parent reply hq]
      cases k with
      | zero =>
        simp only [XDisplay.nthAncestor, ne_eq, Option.some.injEq]
        exact fun h => hnone h.symm
      | succ k =>
        rw [XDisplay.nthAncestor_succ, htree.none_invalid]
        simp

theorem XDisplay.isProperDescendant_iff (d : XDisplay) (w a : Window) :
    d.IsProperDescendant w a ↔
      ∃ reply, d.XQueryTree w = some reply
        ∧ (reply.parent = a ∨ d.IsProperDescendant reply.parent a) := by
  constructor
  · rintro ⟨k, hk⟩
    rw [XDisplay.nthAncestor_succ] at hk
    cases hq : d.XQueryTree w with
    | none => simp [hq] at hk
    | some reply =>
      simp only [hq, Option.some_bind] at hk
      refine ⟨reply, rfl, ?_⟩
      cases k with
      | zero =>
        left
        simpa [XDisplay.nthAncestor] using hk
      | succ k => exact Or.inr ⟨k, hk⟩
  · rintro ⟨reply, hq, h | ⟨k, hk⟩⟩
    · refine ⟨0, ?_⟩
      rw [XDisplay.nthAncestor_succ, hq]
      simp [XDisplay.nthAncestor, h]
    · refine ⟨k + 1, ?_⟩
      rw [XDisplay.nthAncestor_succ, hq]
      simpa using hk

theorem FindToplevelParent.loop_returns {d : XDisplay} {depth : Window → Nat}
    (htree : d.IsWindowTree depth) (fuel : Nat) (window top_level : Window)
    (hfuel : depth window < fuel) :
    ∃ top, FindToplevelParent.loop d fuel window top_level = some top := by
  induction fuel generalizing window top_level with
  | zero => omega
  | succ fuel ih =>
    unfold FindToplevelParent.loop
    cases hq : d.XQueryTree window with
    | none => exact ⟨top_level, rfl⟩
    | some reply =>
      by_cases hroot : reply.parent = reply.root
      · exact ⟨window, by simp [hroot]⟩
      · have hd := htree.parent_depth window reply hq
        obtain ⟨top, htop⟩ := ih reply.parent window (by omega)
        exact ⟨top, by simp [hroot, htop]⟩

theorem FindToplevelParent.loop_result {d : XDisplay} {depth : Window → Nat}
    (htree : d.IsWindowTree depth) (fuel : Nat) (window top_level top : Window)
    (h : FindToplevelParent.loop d fuel window top_level = some top) :
    top = top_level ∨
      ((d.XQueryTree top).isSome
        ∧ (top = window ∨ top ≠ d.DefaultRootWindow)) := by
  induction fuel generalizing window top_level with
  | zero => simp [FindToplevelParent.loop] at h
  | succ fuel ih =>
    unfold FindToplevelParent.loop at h
    cases hq : d.XQueryTree window with
    | none =>
      simp only [hq, Option.some.injEq] at h
      exact Or.inl h.symm
    | some reply =>
      simp only [hq] at h
      by_cases hroot : reply.parent = reply.root
      · simp only [hroot, if_true, Option.some.injEq] at h
        subst h
        exact Or.inr ⟨by simp [hq], Or.inl rfl⟩
      · simp only [hroot, if_false] at h
        rcases ih reply.parent window h with h1 | ⟨h2, h3⟩
        · subst h1
          exact Or.inr ⟨by simp [hq], Or.inl rfl⟩
        · refine Or.inr ⟨h2, ?_⟩
          rcases h3 with h3 | h3
          · right
            rw [h3, ← htree.root_eq window reply hq]
            exact hroot
          · exact Or.inr h3

theorem IsParentOfChildWindow.loop_spec {d : XDisplay} {depth : Window → Nat}
    (htree : d.IsWindowTree depth) (top : Window)
    (hroot : top ≠ d.DefaultRootWindow) (hnone : top ≠ x11.None) (fuel : Nat)
    (child : Window) (hfuel : depth child < fuel) :
    ∃ b, IsParentOfChildWindow.loop d top fuel child = some b
      ∧ (b = true ↔ d.IsProperDescendant child top) := by
  induction fuel generalizing child with
  | zero => omega
  | succ fuel ih =>
    unfold IsParentOfChildWindow.loop
    rw [XDisplay.isProperDescendant_iff]
    cases hq : d.XQueryTree child with
    | none => exact ⟨false, rfl, by simp⟩
    | some reply =>
      by_cases hr : reply.parent = reply.root
      · have hpr : reply.parent = d.DefaultRootWindow := by
          rw [hr, htree.root_eq child reply hq]
        have hne : ¬ reply.parent = top := by
          rw [hpr]
          exact fun h => hroot h.symm
        refine ⟨false, by simp [if_pos hr, hne], ?_⟩
        constructor
        · intro h
          cases h
        · rintro ⟨reply1, h1, h2⟩
          cases h1
          rcases h2 with h2 | ⟨k, hk⟩
          · exact absurd h2 hne
          · rw [hpr] at hk
            exact absurd hk (htree.nthAncestor_root top hroot hnone (k + 1))
      · by_cases hp : reply.parent = top
        · exact ⟨true, by simp [hr, hp], by simp [hp]⟩
        · have hd := htree.parent_depth child reply hq
          obtain ⟨b, hb, hiff⟩ := ih reply.parent (by omega)
          refine ⟨b, by simp [hr, hp, hb], ?_⟩
          rw [hiff]
          constructor
          · intro h
            exact ⟨reply, rfl, Or.inr h⟩
          · rintro ⟨reply1, h1, h2⟩
            cases h1
            rcases h2 with h2 | h2
            · exact absurd h2 hp
            · exact h2

/-! ## Shared lemmas: `Unfocus` -/

theorem Unfocus_early (fuel : Nat) (w : CefWindowX11) (d : XDisplay)
    (h : w.xwindow_ = x11.None ∨ w.window_mapped_ = false
      ∨ d.XGetInputFocus = x11.None) :
    w.Unfocus fuel d = some (w, []) := by
  unfold CefWindowX11.Unfocus
  by_cases h1 : w.xwindow_ = x11.None ∨ w.window_mapped_ = false
  · simp [h1]
  · have h2 : d.XGetInputFocus = 0 := by
      rcases h with h | h | h
      · exact absurd (Or.inl h) h1
      · exact absurd (Or.inr h) h1
      · exact h
    simp [h1, h2]

theorem Unfocus_own_toplevel (fuel : Nat) (w : CefWindowX11) (d : XDisplay)
    (hT : FindToplevelParent fuel d w.xwindow_ = some w.xwindow_) :
    w.Unfocus fuel d = some (w, []) := by
  unfold CefWindowX11.Unfocus
  simp only [hT]
  split
  · rfl
  · split <;> simp

theorem Unfocus_not_held (fuel : Nat) (w : CefWindowX11) (d : XDisplay)
    (top child : Window)
    (hT : FindToplevelParent fuel d w.xwindow_ = some top)
    (hC : (if w.browser_.isSome then FindChild d w.xwindow_
           else some x11.None) = some child)
    (hown : d.XGetInputFocus ≠ w.xwindow_)
    (hchild : d.XGetInputFocus ≠ child) :
    w.Unfocus fuel d = some (w, []) := by
  unfold CefWindowX11.Unfocus
  simp only [hT, hC]
  split
  · rfl
  · split
    · rfl
    · split
      · rfl
      · simp [hown, hchild]

theorem Unfocus_held (fuel : Nat) (w : CefWindowX11) (d : XDisplay)
    (top child : Window) (hvalid : w.xwindow_ ≠ x11.None)
    (hmapped : w.window_mapped_ = true)
    (hfocused : d.XGetInputFocus ≠ x11.None)
    (hT : FindToplevelParent fuel d w.xwindow_ = some top)
    (hne : top ≠ w.xwindow_)
    (hC : (if w.browser_.isSome then FindChild d w.xwindow_
           else some x11.None) = some child)
    (hheld : d.XGetInputFocus = w.xwindow_ ∨ d.XGetInputFocus = child) :
    w.Unfocus fuel d =
      if w.previously_focused_ ≠ 0 then
        (IsParentOfChildWindow fuel d top w.previously_focused_).map fun b =>
          (w, [Call.XSetInputFocus
                 (if b then w.previously_focused_ else top)
                 RevertToParent x11.CurrentTime])
      else
        some (w, [Call.XSetInputFocus top RevertToParent x11.CurrentTime]) := by
  have hv : ¬ w.xwindow_ = 0 := hvalid
  have hf : ¬ d.XGetInputFocus = 0 := hfocused
  unfold CefWindowX11.Unfocus
  simp only [hT, hC]
  simp only [hv, hmapped, hf, hne, hheld, false_or, if_false, if_true,
    Bool.true_eq_false]
  by_cases hp : w.previously_focused_ = 0
  · simp [hp]
  · simp only [ne_eq, hp, not_false_eq_true, if_true]
    cases hq : IsParentOfChildWindow fuel d top w.previously_focused_ with
    | none => rfl
    | some b => cases b <;> simp

theorem sampleDisplay_isWindowTree (focused : Window) :
    (sampleDisplay focused).IsWindowTree sampleDepth where
  none_invalid := rfl
  root_eq := by
    intro w reply h
    simp only [sampleDisplay, sampleTree] at h
    split at h <;> first
      | (cases h; rfl)
      | simp at h
  root_parent := by
    intro reply h
    simp only [sampleDisplay, sampleTree] at h
    cases h
    rfl
  parent_depth := by
    intro w reply h
    simp only [sampleDisplay, sampleTree] at h
    split at h <;> first
      | (cases h; simp [sampleDepth])
      | simp at h

/-! ## Shared lemmas: forwarding to the child -/

theorem FindChild_query_failed (d : XDisplay) (window : Window)
    (h : d.XQueryTree window = none) : FindChild d window = some x11.None := by
  simp [FindChild, h]

theorem DispatchEvent_state_forward (w : CefWindowX11) (d : XDisplay)
    (xev : XEvent) (b : CefBrowserHostImpl) (child : Window)
    (htype : xev.type = PropertyNotify)
    (hatom : xev.atom = d.GetAtom kNetWMState) (hb : w.browser_ = some b)
    (hC : FindChild d w.xwindow_ = some child) (hchild : child ≠ x11.None) :
    w.DispatchEvent d xev =
      some { self := w, deleted := false,
             calls := [stateForwardCall w d child],
             result := POST_DISPATCH_STOP_PROPAGATION } := by
  have hc : ¬ child = 0 := hchild
  unfold CefWindowX11.DispatchEvent stateForwardCall
  simp only [htype, hatom, hb, hC]
  cases hq : d.GetAtomArrayProperty w.xwindow_ kNetWMState with
  | none => simp [hc]
  | some atoms => cases atoms <;> simp [hc]

theorem DispatchEvent_state_no_child (w : CefWindowX11) (d : XDisplay)
    (xev : XEvent) (htype : xev.type = PropertyNotify)
    (hatom : xev.atom = d.GetAtom kNetWMState)
    (hlookup : w.browser_ = none ∨ FindChild d w.xwindow_ = some x11.None) :
    w.DispatchEvent d xev =
      some { self := w, deleted := false, calls := [],
             result := POST_DISPATCH_STOP_PROPAGATION } := by
  unfold CefWindowX11.DispatchEvent
  simp only [htype, hatom]
  cases hb : w.browser_ with
  | none => simp
  | some b =>
    rcases hlookup with h | h
    · simp [hb] at h
    · simp [h]

theorem DispatchEvent_configure_no_child (w : CefWindowX11) (d : XDisplay)
    (xev : XEvent) (htype : xev.type = ConfigureNotify)
    (hevent : xev.window = w.xwindow_)
    (hwindow : xev.xconfigure_window = w.xwindow_)
    (hlookup : w.browser_ = none ∨ FindChild d w.xwindow_ = some x11.None) :
    w.DispatchEvent d xev =
      some { self := { w with
                       bounds_ := ⟨xev.x, xev.y, xev.width, xev.height⟩ },
             deleted := false, calls := [],
             result := POST_DISPATCH_STOP_PROPAGATION } := by
  unfold CefWindowX11.DispatchEvent
  simp only [htype, hevent, hwindow]
  cases hb : w.browser_ with
  | none => simp
  | some b =>
    rcases hlookup with h | h
    · simp [hb] at h
    · simp [h]

theorem DispatchEvent_ping (w : CefWindowX11) (d : XDisplay) (xev : XEvent)
    (htype : xev.type = ClientMessage)
    (hmsg : xev.message_type = d.GetAtom kWMProtocols)
    (hproto : xev.data_l.getD 0 0 = d.GetAtom kNetWMPing)
    (hdistinct : d.GetAtom kNetWMPing ≠ d.GetAtom kWMDeleteWindow) :
    w.DispatchEvent d xev =
      some { self := w, deleted := false,
             calls := [Call.XSendEvent w.parent_xwindow_ false
                         (SubstructureRedirectMask ||| SubstructureNotifyMask)
                         { xev with window := w.parent_xwindow_ },
                       Call.XFlush],
             result := POST_DISPATCH_STOP_PROPAGATION } := by
  unfold CefWindowX11.DispatchEvent
  simp only [htype, hmsg, hproto]
  simp [hdistinct]

theorem CefWindowX11.new_default_parent (browser : Option CefBrowserHostImpl)
    (bounds : Rect) (d : XDisplay) (w : CefWindowX11) (calls : List Call)
    (hnew : CefWindowX11.new browser x11.None bounds d = some (w, calls)) :
    w.parent_xwindow_ = d.DefaultRootWindow := by
  unfold CefWindowX11.new at hnew
  simp only at hnew
  split at hnew
  · cases hnew
  · cases hnew
    rfl

/-! ## Shared lemmas: the top-level ancestor -/

theorem XDisplay.nthAncestor_add (d : XDisplay) (j m : Nat) (w : Window) :
    d.nthAncestor (j + m) w = (d.nthAncestor j w).bind (d.nthAncestor m) := by
  induction j generalizing w with
  | zero => simp [XDisplay.nthAncestor]
  | succ j ih =>
    have hjm : j + 1 + m = (j + m) + 1 := by omega
    rw [hjm, XDisplay.nthAncestor_succ, XDisplay.nthAncestor_succ]
    cases hq : d.XQueryTree w with
    | none => simp
    | some reply => simp [ih]

theorem XDisplay.IsWindowTree.toplevel_not_root {d : XDisplay}
    {depth : Window → Nat} (htree : d.IsWindowTree depth) (a : Window)
    (ha : d.parentOf a = some d.DefaultRootWindow) :
    a ≠ d.DefaultRootWindow ∧ a ≠ x11.None := by
  unfold XDisplay.parentOf at ha
  cases hq : d.XQueryTree a with
  | none => simp [hq] at ha
  | some reply =>
    simp only [hq, Option.map_some', Option.some.injEq] at ha
    have hnone : a ≠ x11.None := by
      intro h
      rw [h, htree.none_invalid] at hq
      cases hq
    refine ⟨?_, hnone⟩
    intro h
    rw [h] at hq
    have hp := htree.root_parent reply hq
    rw [ha] at hp
    exact hnone (h.trans hp)

theorem XDisplay.IsWindowTree.toplevel_unique {d : XDisplay}
    {depth : Window → Nat} (htree : d.IsWindowTree depth) (w a b : Window)
    (j m : Nat) (ha : d.nthAncestor j w = some a)
    (hb : d.nthAncestor (j + m) w = some b)
    (hpa : d.parentOf a = some d.DefaultRootWindow)
    (hpb : d.parentOf b = some d.DefaultRootWindow) : a = b := by
  rw [XDisplay.nthAncestor_add, ha, Option.some_bind] at hb
  cases m with
  | zero =>
    simpa [XDisplay.nthAncestor] using hb
  | succ m =>
    have hstep : d.nthAncestor (m + 1) a = d.nthAncestor m d.DefaultRootWindow := by
      simp [XDisplay.nthAncestor, hpa]
    rw [hstep] at hb
    have hnot := htree.toplevel_not_root b hpb
    exact absurd hb (htree.nthAncestor_root b hnot.1 hnot.2 m)

theorem FindToplevelParent.loop_toplevel {d : XDisplay} {depth : Window → Nat}
    (htree : d.IsWindowTree depth) (fuel : Nat) (window top_level : Window)
    (hin : d.IsProperDescendant window d.DefaultRootWindow)
    (hfuel : depth window < fuel) :
    ∃ top j, FindToplevelParent.loop d fuel window top_level = some top
      ∧ d.nthAncestor j window = some top
      ∧ d.parentOf top = some d.DefaultRootWindow := by
  induction fuel generalizing window top_level with
  | zero => omega
  | succ fuel ih =>
    obtain ⟨reply, hq, hup⟩ := (d.isProperDescendant_iff window _).mp hin
    have hroot := htree.root_eq window reply hq
    unfold FindToplevelParent.loop
    by_cases hp : reply.parent = d.DefaultRootWindow
    · refine ⟨window, 0, by simp [hq, hp, hroot], rfl, ?_⟩
      simp [XDisplay.parentOf, hq, hp]
    · have hin1 : d.IsProperDescendant reply.parent d.DefaultRootWindow := by
        rcases hup with h | h
        · exact absurd h hp
        · exact h
      have hd := htree.parent_depth window reply hq
      obtain ⟨top, j, h1, h2, h3⟩ := ih reply.parent window hin1 (by omega)
      refine ⟨top, j + 1, by simp [hq, hp, hroot, h1], ?_, h3⟩
      rw [XDisplay.nthAncestor_succ, hq]
      simpa using h2

/-! ## Closing -/

/-- C1: for a window record with a valid handle, a `ClientMessage` of type
`WM_PROTOCOLS` whose first data word is `WM_DELETE_WINDOW`, dispatched when
there is no owning browser or the owner grants the close, destroys the native
window exactly once, sets the handle to `None`, calls `WindowDestroyed`
once (not at all without an owner) and deletes the record; on the UI thread
the window is then gone and no later step issues any call. -/
theorem close_request_accepted (w : CefWindowX11) (d : XDisplay)
    (xev : XEvent) (_hvalid : w.xwindow_ ≠ x11.None)
    (htype : xev.type = ClientMessage)
    (hmsg : xev.message_type = d.GetAtom kWMProtocols)
    (hproto : xev.data_l.getD 0 0 = d.GetAtom kWMDeleteWindow)
    (hgrant : w.browser_ = none ∨
      ∃ b, w.browser_ = some b ∧ b.TryCloseBrowser = true) :
    ∃ r, w.DispatchEvent d xev = some r
      ∧ r.calls.countP Call.isXDestroyWindow = 1
      ∧ r.calls.count (Call.XDestroyWindow w.xwindow_) = 1
      ∧ r.self = { w with xwindow_ := x11.None }
      ∧ r.self.xwindow_ = x11.None
      ∧ r.calls.count Call.WindowDestroyed
          = (if w.browser_.isSome then 1 else 0)
      ∧ r.deleted = true
      ∧ (w.CanDispatchEvent xev = true → ∀ (n : Nat) (log : List Call),
          ∃ t1, (UIThread.mk (some w) n log).step (.event d xev) = some t1
            ∧ t1.window = none ∧ t1.log = log ++ r.calls
            ∧ ∀ steps, ∃ t2, t1.run steps = some t2
                ∧ t2.window = none ∧ t2.log = t1.log) := by
  have hall : ∀ b, w.browser_ = some b → b.TryCloseBrowser = true := by
    intro b hb
    rcases hgrant with h | ⟨b1, h1, h2⟩
    · simp [h] at hb
    · rw [h1] at hb
      cases hb
      exact h2
  have hr := DispatchEvent_close_allowed w d xev htype hmsg hproto hall
  refine ⟨_, hr, ?_, ?_, rfl, rfl, ?_, rfl, ?_⟩
  · cases hb : w.browser_ <;> cases hp : d.PlatformEventSource <;>
      simp [closeCalls, hb, hp, Call.isXDestroyWindow]
  · cases hb : w.browser_ <;> cases hp : d.PlatformEventSource <;>
      simp [closeCalls, hb, hp]
  · cases hb : w.browser_ <;> cases hp : d.PlatformEventSource <;>
      simp [closeCalls, hb, hp]
  · intro hcan n log
    refine ⟨{ window := none,
              delayed := n + (closeCalls w d).countP Call.isPostDelayedTask,
              log := log ++ closeCalls w d }, ?_, rfl, rfl, ?_⟩
    · simp [UIThread.step, hcan, hr]
    · intro steps
      exact UIThread.run_deleted _ steps rfl

/-- C1, a worked case: the sample window with a granting owner receives the
event that `Close` sends. -/
theorem close_request_accepted_witness :
    (sampleWindow (some ⟨true⟩) true 0).xwindow_ ≠ x11.None
      ∧ ∃ r, (sampleWindow (some ⟨true⟩) true 0).DispatchEvent
            (sampleDisplay 5)
            ((sampleWindow (some ⟨true⟩) true 0).closeEvent (sampleDisplay 5))
          = some r
        ∧ r.calls.countP Call.isXDestroyWindow = 1 ∧ r.deleted = true := by
  refine ⟨by decide, ?_⟩
  obtain ⟨r, h1, h2, _, _, _, _, h7, _⟩ :=
    close_request_accepted (sampleWindow (some ⟨true⟩) true 0)
      (sampleDisplay 5)
      ((sampleWindow (some ⟨true⟩) true 0).closeEvent (sampleDisplay 5))
      (by decide) rfl rfl rfl (Or.inr ⟨⟨true⟩, rfl, rfl⟩)
  exact ⟨r, h1, h2, h7⟩

/-- C2: for a window record whose owning browser refuses the close, a
`WM_PROTOCOLS` / `WM_DELETE_WINDOW` message leaves every field of the record
as it was, does not delete the record, issues no `XDestroyWindow` and does
not call `WindowDestroyed`: the only call is the `TryCloseBrowser` question
itself. -/
theorem close_request_vetoed (w : CefWindowX11) (d : XDisplay)
    (xev : XEvent) (b : CefBrowserHostImpl)
    (htype : xev.type = ClientMessage)
    (hmsg : xev.message_type = d.GetAtom kWMProtocols)
    (hproto : xev.data_l.getD 0 0 = d.GetAtom kWMDeleteWindow)
    (hb : w.browser_ = some b) (hveto : b.TryCloseBrowser = false) :
    ∃ r, w.DispatchEvent d xev = some r
      ∧ r.self = w ∧ r.deleted = false
      ∧ r.calls = [Call.TryCloseBrowser]
      ∧ r.calls.countP Call.isXDestroyWindow = 0
      ∧ r.calls.count Call.WindowDestroyed = 0 := by
  refine ⟨_, DispatchEvent_close_vetoed w d xev b htype hmsg hproto hb hveto,
    rfl, rfl, rfl, ?_, ?_⟩
  · simp [Call.isXDestroyWindow]
  · simp

/-- C2, a worked case: the sample window with a refusing owner. -/
theorem close_request_vetoed_witness :
    ∃ r, (sampleWindow (some ⟨false⟩) true 0).DispatchEvent (sampleDisplay 5)
          ((sampleWindow (some ⟨false⟩) true 0).closeEvent (sampleDisplay 5))
        = some r
      ∧ r.self = sampleWindow (some ⟨false⟩) true 0 ∧ r.deleted = false := by
  obtain ⟨r, h1, h2, h3, _⟩ :=
    close_request_vetoed (sampleWindow (some ⟨false⟩) true 0)
      (sampleDisplay 5)
      ((sampleWindow (some ⟨false⟩) true 0).closeEvent (sampleDisplay 5))
      ⟨false⟩ rfl rfl rfl rfl rfl
  exact ⟨r, h1, h2, h3⟩

/-- C3: `Close` changes no field of the record and issues a single call, an
`XSendEvent` to the window's own handle (so no `XDestroyWindow`); the event
sent is a `ClientMessage` of type `WM_PROTOCOLS` whose first data word is
`WM_DELETE_WINDOW`, `CanDispatchEvent` accepts it for this window, and
`DispatchEvent` handles it as the close request: refused by the owner it
changes nothing, otherwise it destroys the window and deletes the record. -/
theorem Close_defers_to_dispatcher (w : CefWindowX11) (d : XDisplay) :
    (w.Close d).1 = w
      ∧ (w.Close d).2
          = [Call.XSendEvent w.xwindow_ false NoEventMask (w.closeEvent d)]
      ∧ (w.Close d).2.countP Call.isXDestroyWindow = 0
      ∧ (w.closeEvent d).type = ClientMessage
      ∧ (w.closeEvent d).window = w.xwindow_
      ∧ (w.closeEvent d).message_type = d.GetAtom kWMProtocols
      ∧ (w.closeEvent d).data_l.getD 0 0 = d.GetAtom kWMDeleteWindow
      ∧ w.CanDispatchEvent (w.closeEvent d) = true
      ∧ (∀ b, w.browser_ = some b → b.TryCloseBrowser = false →
          w.DispatchEvent d (w.closeEvent d)
            = some { self := w, deleted := false,
                     calls := [Call.TryCloseBrowser],
                     result := POST_DISPATCH_STOP_PROPAGATION })
      ∧ ((∀ b, w.browser_ = some b → b.TryCloseBrowser = true) →
          w.DispatchEvent d (w.closeEvent d)
            = some { self := { w with xwindow_ := x11.None }, deleted := true,
                     calls := closeCalls w d,
                     result := POST_DISPATCH_STOP_PROPAGATION }) := by
  refine ⟨rfl, rfl, ?_, rfl, rfl, rfl, rfl, ?_, ?_, ?_⟩
  · simp [CefWindowX11.Close, Call.isXDestroyWindow]
  · simp [CefWindowX11.CanDispatchEvent, FindEventTarget,
      CefWindowX11.closeEvent]
  · intro b hb hveto
    exact DispatchEvent_close_vetoed w d _ b rfl rfl rfl hb hveto
  · intro hgrant
    exact DispatchEvent_close_allowed w d _ rfl rfl rfl hgrant

/-- C3, a worked case: the sample window without an owner closes itself. -/
theorem Close_defers_to_dispatcher_witness :
    ((sampleWindow none true 0).Close (sampleDisplay 5)).1
        = sampleWindow none true 0
      ∧ (sampleWindow none true 0).CanDispatchEvent
          ((sampleWindow none true 0).closeEvent (sampleDisplay 5)) = true :=
  ⟨(Close_defers_to_dispatcher (sampleWindow none true 0) (sampleDisplay 5)).1,
   (Close_defers_to_dispatcher (sampleWindow none true 0)
      (sampleDisplay 5)).2.2.2.2.2.2.2.1⟩

/-! ## Showing -/

/-- C4 as stated fails: the sample window, valid and already mapped, issues
no map-window request at all when `Show` is called twice. -/
theorem Show_twice_already_mapped :
    (sampleWindow none true 0).xwindow_ ≠ x11.None
      ∧ (sampleWindow none true 0).Show 10 (sampleDisplay 5)
          = some (sampleWindow none true 0, [])
      ∧ ¬ ∃ w1 c1 w2 c2,
          (sampleWindow none true 0).Show 10 (sampleDisplay 5) = some (w1, c1)
            ∧ w1.Show 10 (sampleDisplay 5) = some (w2, c2)
            ∧ (c1 ++ c2).countP Call.isXMapWindow = 1 := by
  have h : (sampleWindow none true 0).Show 10 (sampleDisplay 5)
      = some (sampleWindow none true 0, []) := rfl
  refine ⟨by decide, h, ?_⟩
  rintro ⟨w1, c1, w2, c2, h1, h2, h3⟩
  rw [h] at h1
  cases h1
  rw [h] at h2
  cases h2
  simp at h3

/-- C4, amended: for a window record with a valid handle, the first `Show`
issues exactly one map-window request when the window is not yet mapped and
none when it is already mapped, and leaves the mapped flag set; a second
`Show` right after it changes no field of the record and issues no call at
all. (The first call returns when the queries behind `FindChild` and
`FindToplevelParent` answer as the code's assertions expect.) -/
theorem Show_idempotent (fuel1 fuel2 : Nat) (w : CefWindowX11)
    (d1 d2 : XDisplay) (hvalid : w.xwindow_ ≠ x11.None)
    (hfirst : w.window_mapped_ = false →
      ∃ child top, FindChild d1 w.xwindow_ = some child
        ∧ FindToplevelParent fuel1 d1 w.xwindow_ = some top
        ∧ top ≠ x11.None) :
    ∃ w1 c1, w.Show fuel1 d1 = some (w1, c1)
      ∧ w1 = { w with window_mapped_ := true }
      ∧ c1.countP Call.isXMapWindow = (if w.window_mapped_ then 0 else 1)
      ∧ (w.window_mapped_ = false →
          c1.count (Call.XMapWindow w.xwindow_) = 1)
      ∧ w1.Show fuel2 d2 = some (w1, [])
      ∧ (c1 ++ []).countP Call.isXMapWindow
          = (if w.window_mapped_ then 0 else 1) := by
  have hsecond : ∀ w1 : CefWindowX11, w1.window_mapped_ = true →
      w1.Show fuel2 d2 = some (w1, []) := by
    intro w1 hm
    unfold CefWindowX11.Show
    simp [hm]
  cases hm : w.window_mapped_ with
  | true =>
    have hw : ({ w with window_mapped_ := true } : CefWindowX11) = w := by
      cases w
      simp_all
    refine ⟨w, [], ?_, hw.symm, by simp, by simp, hsecond w hm, by simp⟩
    unfold CefWindowX11.Show
    simp [hm]
  | false =>
    obtain ⟨child, top, hC, hT, htop⟩ := hfirst hm
    have hcount : (showCalls w d1 child top).countP Call.isXMapWindow = 1 := by
      unfold showCalls
      split <;> simp [Call.isXMapWindow]
    have hcount2 : (showCalls w d1 child top).count
        (Call.XMapWindow w.xwindow_) = 1 := by
      unfold showCalls
      split <;> simp
    refine ⟨{ w with window_mapped_ := true }, showCalls w d1 child top,
      Show_unmapped fuel1 w d1 child top hvalid hm hC hT htop, rfl, ?_,
      fun _ => hcount2, hsecond _ rfl, ?_⟩
    · simpa using hcount
    · simpa using hcount

/-- C4, a worked case: the sample window, not yet mapped, is shown twice. -/
theorem Show_idempotent_witness :
    (sampleWindow (some ⟨true⟩) false 0).xwindow_ ≠ x11.None
      ∧ ∃ w1 c1,
          (sampleWindow (some ⟨true⟩) false 0).Show 10 (sampleDisplay 4)
            = some (w1, c1)
          ∧ c1.countP Call.isXMapWindow = 1
          ∧ w1.Show 10 (sampleDisplay 4) = some (w1, []) := by
  refine ⟨by decide, ?_⟩
  obtain ⟨w1, c1, h1, _, h3, _, h5, _⟩ :=
    Show_idempotent 10 10 (sampleWindow (some ⟨true⟩) false 0)
      (sampleDisplay 4) (sampleDisplay 4) (by decide)
      (fun _ => ⟨7, 3, rfl, rfl, by decide⟩)
  exact ⟨w1, c1, h1, by simpa using h3, h5⟩

/-! ## The delayed re-focus -/

/-- C5 as stated fails: on a freshly constructed window the focus sequence
`FocusIn`, `FocusOut`, `FocusIn` leaves two delayed `ContinueFocus` tasks
posted and not yet run. -/
theorem two_refocus_tasks_outstanding :
    (∀ s ∈ sampleFocusInOutIn, s.isFocusStep = true)
      ∧ ((CefWindowX11.new none x11.None ⟨0, 0, 1, 1⟩ (sampleDisplay 4)).bind
            fun created => (UIThread.fresh created.1).run sampleFocusInOutIn).map
          UIThread.delayed = some 2
      ∧ ¬ (2 ≤ 1) := by
  refine ⟨?_, rfl, by decide⟩
  intro s hs
  simp only [sampleFocusInOutIn, List.mem_cons, List.mem_singleton,
    List.not_mem_nil, or_false] at hs
  rcases hs with h | h | h <;> subst h <;> rfl

/-- C5, amended: at every point of every sequence of `FocusIn` events,
`FocusOut` events and delayed tasks running, starting from a freshly
constructed window, the number of delayed `ContinueFocus` tasks posted and
not yet run is at most one more than the number of `FocusOut` events handed
over so far; in particular it is at most one as long as no `FocusOut` has
been handed over. (Every initial part of such a sequence is such a
sequence, so the bound holds at every point.) -/
theorem refocus_tasks_bounded (browser : Option CefBrowserHostImpl)
    (parent_xwindow : Window) (bounds : Rect) (d : XDisplay)
    (w : CefWindowX11) (calls : List Call)
    (hnew : CefWindowX11.new browser parent_xwindow bounds d = some (w, calls))
    (steps : List UIStep) (hfocus : ∀ s ∈ steps, s.isFocusStep = true) :
    ∃ t, (UIThread.fresh w).run steps = some t
      ∧ t.delayed ≤ steps.countP UIStep.isFocusOut + 1
      ∧ (steps.countP UIStep.isFocusOut = 0 → t.delayed ≤ 1) := by
  have hpending : w.focus_pending_ = false := by
    unfold CefWindowX11.new at hnew
    simp only at hnew
    split at hnew
    · cases hnew
    · cases hnew
      rfl
  obtain ⟨t, w1, hrun, _, hle⟩ :=
    UIThread.focus_steps_measure steps hfocus (UIThread.fresh w) w rfl
  have hzero : (UIThread.fresh w).delayed = 0 := rfl
  rw [hzero, hpending] at hle
  have hbound : t.delayed ≤ steps.countP UIStep.isFocusOut + 1 := by
    have : t.delayed ≤ t.delayed + (if w1.focus_pending_ then 0 else 1) := by
      omega
    simp at hle
    omega
  exact ⟨t, hrun, hbound, fun h0 => by omega⟩

/-- C5, a worked case: the sequence `FocusIn`, then the delayed task. -/
theorem refocus_tasks_bounded_witness :
    (CefWindowX11.new none x11.None ⟨0, 0, 1, 1⟩ (sampleDisplay 4)).map
        Prod.fst = some ⟨none, 1, 5, 0, false, ⟨0, 0, 1, 1⟩, false⟩
      ∧ (∀ s ∈ sampleFocusInThenTask, s.isFocusStep = true)
      ∧ ∃ t, (UIThread.fresh ⟨none, 1, 5, 0, false, ⟨0, 0, 1, 1⟩, false⟩).run
            sampleFocusInThenTask = some t
          ∧ t.delayed ≤ 1 := by
  have hsteps : ∀ s ∈ sampleFocusInThenTask, s.isFocusStep = true := by
    intro s hs
    simp only [sampleFocusInThenTask, List.mem_cons, List.mem_singleton,
      List.not_mem_nil, or_false] at hs
    rcases hs with h | h <;> subst h <;> rfl
  refine ⟨rfl, hsteps, ?_⟩
  obtain ⟨t, h1, _, h3⟩ :=
    refocus_tasks_bounded none x11.None ⟨0, 0, 1, 1⟩ (sampleDisplay 4) _ _ rfl
      sampleFocusInThenTask hsteps
  exact ⟨t, h1, h3 rfl⟩

/-- C6: for a window record with no pending focus, a `FocusIn`, then a
`FocusOut`, then the delayed task running, calls the owner's `SetFocus` not
once: `ContinueFocus` finds the pending flag cleared and does nothing, and
the flag is false afterwards (the record is as it was before the three
steps). -/
theorem focus_in_out_never_applies (w : CefWindowX11) (d1 d2 : XDisplay)
    (xin xout : XEvent) (n : Nat) (hpending : w.focus_pending_ = false)
    (hin : xin.type = x11.FocusIn) (hout : xout.type = x11.FocusOut)
    (hcan1 : w.CanDispatchEvent xin = true)
    (hcan2 : w.CanDispatchEvent xout = true) :
    ∃ t w1, (UIThread.mk (some w) n []).run
          [.event d1 xin, .event d2 xout, .runDelayedTask] = some t
      ∧ t.log.countP Call.isSetFocus = 0
      ∧ t.log = [Call.PostDelayedTaskContinueFocus 100]
      ∧ t.window = some w1 ∧ w1 = w ∧ w1.focus_pending_ = false
      ∧ t.delayed = n
      ∧ w1.ContinueFocus = (w1, []) := by
  have hw : ({ w with focus_pending_ := false } : CefWindowX11) = w := by
    cases w
    simp_all
  have hcan3 : ({ w with focus_pending_ := true } : CefWindowX11).CanDispatchEvent
      xout = true := hcan2
  have hcont : w.ContinueFocus = (w, []) := by
    simp [CefWindowX11.ContinueFocus, hpending]
  refine ⟨{ window := some w, delayed := n,
            log := [Call.PostDelayedTaskContinueFocus 100] }, w, ?_, ?_, rfl,
    rfl, rfl, hpending, rfl, hcont⟩
  · simp [UIThread.run, UIThread.step, hcan1, hcan3,
      DispatchEvent_FocusIn w d1 xin hin,
      DispatchEvent_FocusOut _ d2 xout hout, hpending, hw, hcont,
      Call.isPostDelayedTask]
  · simp [Call.isSetFocus]

/-- C6, a worked case: the sample window with an owner. -/
theorem focus_in_out_never_applies_witness :
    (sampleWindow (some ⟨true⟩) true 0).focus_pending_ = false
      ∧ ∃ t, (UIThread.mk (some (sampleWindow (some ⟨true⟩) true 0)) 0 []).run
            [.event (sampleDisplay 4) (sampleEvent x11.FocusIn),
             .event (sampleDisplay 4) (sampleEvent x11.FocusOut),
             .runDelayedTask] = some t
          ∧ t.log.countP Call.isSetFocus = 0 := by
  refine ⟨rfl, ?_⟩
  obtain ⟨t, _, h1, h2, _⟩ :=
    focus_in_out_never_applies (sampleWindow (some ⟨true⟩) true 0)
      (sampleDisplay 4) (sampleDisplay 4) (sampleEvent x11.FocusIn)
      (sampleEvent x11.FocusOut) 0 rfl rfl rfl rfl rfl
  exact ⟨t, h1, h2⟩

/-- C7 as stated fails: for the sample window without an owning browser, a
`FocusIn` followed by the delayed task running calls `SetFocus` not once. -/
theorem focus_in_without_owner :
    (sampleWindow none true 0).focus_pending_ = false
      ∧ ((UIThread.mk (some (sampleWindow none true 0)) 0 []).run
            sampleFocusInThenTask).map
          (fun t => t.log.countP Call.isSetFocus) = some 0
      ∧ ¬ (0 = 1) :=
  ⟨rfl, rfl, by decide⟩

/-- C7, amended: for a window record with no pending focus, a single
`FocusIn` followed by the delayed task running (nothing in between) calls
the owner's `SetFocus(true)` exactly once when the record has an owning
browser and not at all when it has none; `SetFocus` is called with no other
argument, and the pending flag is false afterwards. -/
theorem focus_in_applies_once (w : CefWindowX11) (d : XDisplay)
    (xin : XEvent) (n : Nat) (hpending : w.focus_pending_ = false)
    (hin : xin.type = x11.FocusIn)
    (hcan : w.CanDispatchEvent xin = true) :
    ∃ t w1, (UIThread.mk (some w) n []).run [.event d xin, .runDelayedTask]
          = some t
      ∧ t.log.count (Call.SetFocus true)
          = (if w.browser_.isSome then 1 else 0)
      ∧ t.log.countP Call.isSetFocus = (if w.browser_.isSome then 1 else 0)
      ∧ t.window = some w1 ∧ w1 = w ∧ w1.focus_pending_ = false
      ∧ t.delayed = n := by
  have hw : ({ w with focus_pending_ := false } : CefWindowX11) = w := by
    cases w
    simp_all
  refine ⟨{ window := some w, delayed := n,
            log := [Call.PostDelayedTaskContinueFocus 100]
              ++ (if w.browser_.isSome then [Call.SetFocus true] else []) },
    w, ?_, ?_, ?_, rfl, rfl, hpending, rfl⟩
  · simp [UIThread.run, UIThread.step, hcan,
      DispatchEvent_FocusIn w d xin hin, hpending, hw,
      CefWindowX11.ContinueFocus, Call.isPostDelayedTask]
  · cases w.browser_ <;> simp
  · cases w.browser_ <;> simp [Call.isSetFocus]

/-- C7, a worked case: the sample window with an owner. -/
theorem focus_in_applies_once_witness :
    (sampleWindow (some ⟨true⟩) true 0).focus_pending_ = false
      ∧ ∃ t, (UIThread.mk (some (sampleWindow (some ⟨true⟩) true 0)) 0 []).run
            [.event (sampleDisplay 4) (sampleEvent x11.FocusIn),
             .runDelayedTask] = some t
          ∧ t.log.count (Call.SetFocus true) = 1 := by
  refine ⟨rfl, ?_⟩
  obtain ⟨t, _, h1, h2, _⟩ :=
    focus_in_applies_once (sampleWindow (some ⟨true⟩) true 0)
      (sampleDisplay 4) (sampleEvent x11.FocusIn) 0 rfl rfl rfl
  exact ⟨t, h1, by simpa [sampleWindow] using h2⟩

/-! ## Geometry -/

/-- C8: for a window record with a valid handle and any requested rectangle,
`SetBounds` changes no field of the record; it issues no call when neither
the size nor the origin differs from the cached bounds, and otherwise one
`XConfigureWindow` on its own handle whose value mask holds the width and
height bits exactly when the size differs and the x and y bits exactly when
the origin differs (and no other bit), with the matching fields of the
request taken from the requested rectangle and the others left at zero. In
particular an unchanged origin with a changed size gives the mask
`CWWidth | CWHeight` with `x` and `y` zero. -/
theorem SetBounds_changed_dimensions_only (w : CefWindowX11) (bounds : Rect)
    (hvalid : w.xwindow_ ≠ x11.None) :
    (w.SetBounds bounds).1 = w
      ∧ (w.bounds_.size = bounds.size → w.bounds_.origin = bounds.origin →
          (w.SetBounds bounds).2 = [])
      ∧ (w.bounds_.size ≠ bounds.size ∨ w.bounds_.origin ≠ bounds.origin →
          ∃ mask changes,
            (w.SetBounds bounds).2
                = [Call.XConfigureWindow w.xwindow_ mask changes]
              ∧ (mask &&& CWWidth ≠ 0 ↔ w.bounds_.size ≠ bounds.size)
              ∧ (mask &&& CWHeight ≠ 0 ↔ w.bounds_.size ≠ bounds.size)
              ∧ (mask &&& CWX ≠ 0 ↔ w.bounds_.origin ≠ bounds.origin)
              ∧ (mask &&& CWY ≠ 0 ↔ w.bounds_.origin ≠ bounds.origin)
              ∧ mask ||| (CWX ||| CWY ||| CWWidth ||| CWHeight)
                  = CWX ||| CWY ||| CWWidth ||| CWHeight
              ∧ (changes.width, changes.height)
                  = (if w.bounds_.size ≠ bounds.size then bounds.size
                     else (0, 0))
              ∧ (changes.x, changes.y)
                  = (if w.bounds_.origin ≠ bounds.origin then bounds.origin
                     else (0, 0)))
      ∧ (w.bounds_.size ≠ bounds.size → w.bounds_.origin = bounds.origin →
          (w.SetBounds bounds).2
            = [Call.XConfigureWindow w.xwindow_ (CWWidth ||| CWHeight)
                 ⟨0, 0, bounds.width, bounds.height⟩]) := by
  have hv : ¬ w.xwindow_ = 0 := hvalid
  have hself : (w.SetBounds bounds).1 = w := by
    unfold CefWindowX11.SetBounds
    simp only [hv, if_false]
    by_cases hs : w.bounds_.size = bounds.size <;>
      by_cases ho : w.bounds_.origin = bounds.origin <;>
      simp [hs, ho]
  refine ⟨hself, ?_, ?_, ?_⟩
  · intro hs ho
    unfold CefWindowX11.SetBounds
    simp [hv, hs, ho]
  · intro _
    by_cases hs : w.bounds_.size = bounds.size <;>
      by_cases ho : w.bounds_.origin = bounds.origin
    · simp_all
    · refine ⟨CWX ||| CWY, ⟨bounds.x, bounds.y, 0, 0⟩, ?_, ?_⟩
      · unfold CefWindowX11.SetBounds
        simp [hv, hs, ho, XWindowChanges.zero]
      · refine ⟨?_, ?_, ?_, ?_, ?_, ?_, ?_⟩ <;>
          (try simp only [hs, ho, ne_eq, not_true_eq_false,
            not_false_eq_true, if_true, if_false, iff_true, iff_false,
            not_not]) <;>
          first | decide | rfl
    · refine ⟨CWHeight ||| CWWidth, ⟨0, 0, bounds.width, bounds.height⟩,
        ?_, ?_⟩
      · unfold CefWindowX11.SetBounds
        simp [hv, hs, ho, XWindowChanges.zero]
      · refine ⟨?_, ?_, ?_, ?_, ?_, ?_, ?_⟩ <;>
          (try simp only [hs, ho, ne_eq, not_true_eq_false,
            not_false_eq_true, if_true, if_false, iff_true, iff_false,
            not_not]) <;>
          first | decide | rfl
    · refine ⟨CWHeight ||| CWWidth ||| (CWX ||| CWY),
        ⟨bounds.x, bounds.y, bounds.width, bounds.height⟩, ?_, ?_⟩
      · unfold CefWindowX11.SetBounds
        simp [hv, hs, ho, XWindowChanges.zero]
      · refine ⟨?_, ?_, ?_, ?_, ?_, ?_, ?_⟩ <;>
          (try simp only [hs, ho, ne_eq, not_true_eq_false,
            not_false_eq_true, if_true, if_false, iff_true, iff_false,
            not_not]) <;>
          first | decide | rfl
  · intro hs ho
    unfold CefWindowX11.SetBounds
    simp [hv, hs, ho, XWindowChanges.zero]
    decide

/-- C8, a worked case: the sample window is resized in place from 300x200 to
301x200. -/
theorem SetBounds_changed_dimensions_only_witness :
    (sampleWindow none true 0).xwindow_ ≠ x11.None
      ∧ ((sampleWindow none true 0).SetBounds ⟨10, 20, 301, 200⟩).2
          = [Call.XConfigureWindow 5 12 ⟨0, 0, 301, 200⟩] :=
  ⟨by decide,
   (SetBounds_changed_dimensions_only (sampleWindow none true 0)
      ⟨10, 20, 301, 200⟩ (by decide)).2.2.2 (by decide) (by decide)⟩

/-! ## Giving focus back -/

/-- C9 as stated fails: the sample window is mapped under the top-level
window `3`, its embedded child is `7`, and input focus is on the window's
own handle `5`, not on the child; `Unfocus` then hands focus to `3`. -/
theorem Unfocus_own_handle_focused :
    FindChild (sampleDisplay 5) (sampleWindow (some ⟨true⟩) true 0).xwindow_
        = some 7
      ∧ (sampleDisplay 5).XGetInputFocus ≠ 7
      ∧ (sampleWindow (some ⟨true⟩) true 0).Unfocus 10 (sampleDisplay 5)
          = some (sampleWindow (some ⟨true⟩) true 0,
              [Call.XSetInputFocus 3 RevertToParent x11.CurrentTime])
      ∧ (sampleWindow (some ⟨true⟩) true 0).Unfocus 10 (sampleDisplay 5)
          ≠ some (sampleWindow (some ⟨true⟩) true 0, []) := by
  refine ⟨rfl, by decide, rfl, ?_⟩
  have h : (sampleWindow (some ⟨true⟩) true 0).Unfocus 10 (sampleDisplay 5)
      = some (sampleWindow (some ⟨true⟩) true 0,
          [Call.XSetInputFocus 3 RevertToParent x11.CurrentTime]) := rfl
  rw [h]
  simp

/-- C9, amended: for every window record and every state of the windowing
system in which the window holding input focus is neither the embedded
child window nor this window's own handle, `Unfocus` is a no-op: it issues
no call and leaves every field of the record as it was. (The call returns
when the walk of `FindToplevelParent` ends and the child query answers as
`FindChild` asserts.) -/
theorem Unfocus_noop_unless_held (fuel : Nat) (w : CefWindowX11)
    (d : XDisplay)
    (hT : w.xwindow_ ≠ x11.None → w.window_mapped_ = true →
      d.XGetInputFocus ≠ x11.None →
      (FindToplevelParent fuel d w.xwindow_).isSome)
    (hC : w.browser_.isSome →
      ∃ child, FindChild d w.xwindow_ = some child
        ∧ d.XGetInputFocus ≠ child)
    (hown : d.XGetInputFocus ≠ w.xwindow_) :
    w.Unfocus fuel d = some (w, [])
      ∧ ∀ r, w.Unfocus fuel d = some r →
          r.1 = w ∧ r.2.countP Call.isXSetInputFocus = 0 := by
  have hmain : w.Unfocus fuel d = some (w, []) := by
    by_cases hearly : w.xwindow_ = x11.None ∨ w.window_mapped_ = false
        ∨ d.XGetInputFocus = x11.None
    · exact Unfocus_early fuel w d hearly
    · have hv : w.xwindow_ ≠ x11.None := fun h => hearly (Or.inl h)
      have hm : w.window_mapped_ = true := by
        cases hm : w.window_mapped_
        · exact absurd (Or.inr (Or.inl hm)) hearly
        · rfl
      have hf : d.XGetInputFocus ≠ x11.None := fun h =>
        hearly (Or.inr (Or.inr h))
      obtain ⟨top, htop⟩ := Option.isSome_iff_exists.mp (hT hv hm hf)
      cases hb : w.browser_ with
      | none =>
        exact Unfocus_not_held fuel w d top x11.None htop (by simp [hb]) hown
          hf
      | some b =>
        obtain ⟨child, hchild, hne⟩ := hC (by simp [hb])
        exact Unfocus_not_held fuel w d top child htop (by simp [hb, hchild])
          hown hne
  refine ⟨hmain, ?_⟩
  intro r hr
  rw [hmain] at hr
  cases hr
  exact ⟨rfl, rfl⟩

/-- C9, a worked case: the sample window while the other top-level window
`4` holds input focus. -/
theorem Unfocus_noop_unless_held_witness :
    (sampleDisplay 4).XGetInputFocus
        ≠ (sampleWindow (some ⟨true⟩) true 9).xwindow_
      ∧ FindChild (sampleDisplay 4)
          (sampleWindow (some ⟨true⟩) true 9).xwindow_ = some 7
      ∧ (sampleWindow (some ⟨true⟩) true 9).Unfocus 10 (sampleDisplay 4)
          = some (sampleWindow (some ⟨true⟩) true 9, []) :=
  ⟨by decide, rfl,
   (Unfocus_noop_unless_held 10 (sampleWindow (some ⟨true⟩) true 9)
      (sampleDisplay 4) (fun _ _ _ => rfl)
      (fun _ => ⟨7, rfl, by decide⟩) (by decide)).1⟩

/-- C10: when `Unfocus` restores focus (window mapped with a valid handle,
some window focused, this window not its own top-level ancestor, focus held
by this window or by its embedded child), it issues exactly one
`XSetInputFocus`; the target is the previously-focused handle when that
handle is non-zero and is a proper descendant, in the window tree, of this
window's top-level ancestor, and the top-level ancestor in every other
case. The tree queries are those of a window tree, and `fuel` is enough for
the walks up from the window and from the previously-focused handle. -/
theorem Unfocus_restores_focus (fuel : Nat) (w : CefWindowX11)
    (d : XDisplay) (depth : Window → Nat) (htree : d.IsWindowTree depth)
    (hfuel1 : depth w.xwindow_ < fuel)
    (hfuel2 : depth w.previously_focused_ < fuel)
    (hvalid : w.xwindow_ ≠ x11.None) (hmapped : w.window_mapped_ = true)
    (hfocused : d.XGetInputFocus ≠ x11.None)
    (hchild : w.browser_.isSome → (FindChild d w.xwindow_).isSome)
    (hheld : d.XGetInputFocus = w.xwindow_
      ∨ (w.browser_.isSome
          ∧ FindChild d w.xwindow_ = some d.XGetInputFocus)) :
    ∃ top, FindToplevelParent fuel d w.xwindow_ = some top
      ∧ (top ≠ w.xwindow_ →
          ∃ target,
            w.Unfocus fuel d
                = some (w, [Call.XSetInputFocus target RevertToParent
                              x11.CurrentTime])
              ∧ (w.previously_focused_ ≠ x11.None
                  ∧ d.IsProperDescendant w.previously_focused_ top →
                  target = w.previously_focused_)
              ∧ (¬ (w.previously_focused_ ≠ x11.None
                    ∧ d.IsProperDescendant w.previously_focused_ top) →
                  target = top)
              ∧ ∀ r, w.Unfocus fuel d = some r →
                  r.2.countP Call.isXSetInputFocus = 1) := by
  obtain ⟨top, htop⟩ :=
    FindToplevelParent.loop_returns htree fuel w.xwindow_ w.xwindow_ hfuel1
  refine ⟨top, htop, ?_⟩
  intro hne
  -- the top-level ancestor is a window other than the root
  have hres := FindToplevelParent.loop_result htree fuel w.xwindow_
    w.xwindow_ top htop
  have hq : (d.XQueryTree top).isSome
      ∧ (top = w.xwindow_ ∨ top ≠ d.DefaultRootWindow) := by
    rcases hres with h | h
    · exact absurd h hne
    · exact h
  have hroot : top ≠ d.DefaultRootWindow := by
    rcases hq.2 with h | h
    · exact absurd h hne
    · exact h
  have hnone : top ≠ x11.None := by
    intro h
    have h1 := hq.1
    rw [h, htree.none_invalid] at h1
    cases h1
  -- the embedded child
  obtain ⟨child, hC, hheld1⟩ :
      ∃ child, (if w.browser_.isSome then FindChild d w.xwindow_
                else some x11.None) = some child
        ∧ (d.XGetInputFocus = w.xwindow_ ∨ d.XGetInputFocus = child) := by
    cases hb : w.browser_ with
    | none =>
      refine ⟨x11.None, by simp, ?_⟩
      rcases hheld with h | ⟨h, _⟩
      · exact Or.inl h
      · simp [hb] at h
    | some b =>
      obtain ⟨child, hchild1⟩ :=
        Option.isSome_iff_exists.mp (hchild (by simp [hb]))
      refine ⟨child, by simp [hchild1], ?_⟩
      rcases hheld with h | ⟨_, h⟩
      · exact Or.inl h
      · rw [hchild1] at h
        cases h
        exact Or.inr rfl
  have heval := Unfocus_held fuel w d top child hvalid hmapped hfocused htop
    hne hC hheld1
  by_cases hp : w.previously_focused_ = 0
  · refine ⟨top, ?_, ?_, fun _ => rfl, ?_⟩
    · rw [heval]
      simp [hp]
    · intro h
      exact absurd hp h.1
    · intro r hr
      rw [heval] at hr
      simp only [hp, ne_eq, not_true_eq_false, if_false,
        Option.some.injEq] at hr
      subst hr
      simp [Call.isXSetInputFocus]
  · -- the walk up from the previously-focused handle
    have hwalk : ∃ b, IsParentOfChildWindow fuel d top w.previously_focused_
          = some b
        ∧ (b = true ↔ d.IsProperDescendant w.previously_focused_ top) := by
      unfold IsParentOfChildWindow
      by_cases hsame : top = w.previously_focused_
      · refine ⟨false, by simp [hsame], ?_⟩
        constructor
        · intro h
          cases h
        · intro h
          rw [hsame] at h
          exact absurd h (htree.not_descendant_self _)
      · simp only [hsame, if_false]
        exact IsParentOfChildWindow.loop_spec htree top hroot hnone fuel
          w.previously_focused_ hfuel2
    obtain ⟨b, hb, hiff⟩ := hwalk
    have hresult : w.Unfocus fuel d
        = some (w, [Call.XSetInputFocus
                      (if b then w.previously_focused_ else top)
                      RevertToParent x11.CurrentTime]) := by
      rw [heval]
      simp [hp, hb]
    refine ⟨if b then w.previously_focused_ else top, hresult, ?_, ?_, ?_⟩
    · intro h
      have hb1 : b = true := hiff.mpr h.2
      simp [hb1]
    · intro h
      have hb1 : b = false := by
        cases hb2 : b
        · rfl
        · exact absurd ⟨hp, hiff.mp hb2⟩ h
      simp [hb1]
    · intro r hr
      rw [hresult] at hr
      cases hr
      simp [Call.isXSetInputFocus]

/-- C10, a worked case: the sample window's child `7` holds focus and the
previously-focused handle `9` is a child of the top-level window `3`, so
focus goes back to `9`. -/
theorem Unfocus_restores_focus_witness :
    (sampleDisplay 7).IsWindowTree sampleDepth
      ∧ (sampleDisplay 7).IsProperDescendant 9 3
      ∧ FindToplevelParent 10 (sampleDisplay 7) 5 = some 3
      ∧ (sampleWindow (some ⟨true⟩) true 9).Unfocus 10 (sampleDisplay 7)
          = some (sampleWindow (some ⟨true⟩) true 9,
              [Call.XSetInputFocus 9 RevertToParent x11.CurrentTime]) := by
  have hdesc : (sampleDisplay 7).IsProperDescendant 9 3 := ⟨0, rfl⟩
  refine ⟨sampleDisplay_isWindowTree 7, hdesc, rfl, ?_⟩
  obtain ⟨top, htop, h⟩ :=
    Unfocus_restores_focus 10 (sampleWindow (some ⟨true⟩) true 9)
      (sampleDisplay 7) sampleDepth (sampleDisplay_isWindowTree 7)
      (by decide) (by decide) (by decide) rfl (by decide) (fun _ => rfl)
      (Or.inr ⟨rfl, rfl⟩)
  have htop3 : top = 3 := by
    have h3 : FindToplevelParent 10 (sampleDisplay 7)
        (sampleWindow (some ⟨true⟩) true 9).xwindow_ = some 3 := rfl
    rw [h3] at htop
    cases htop
    rfl
  subst htop3
  obtain ⟨target, h1, h2, _, _⟩ := h (by decide)
  have htarget : target = 9 := h2 ⟨by decide, hdesc⟩
  rw [h1, htarget]

/-! ## Taking focus -/

/-- C11 as stated fails: the sample window has an owning browser and its
embedded child `7` already holds input focus, so this is not the first case;
`Focus` then issues no request at all, although the window's own handle `5`
does not hold focus. -/
theorem Focus_child_already_focused :
    (sampleWindow (some ⟨true⟩) true 0).window_mapped_ = true
      ∧ (sampleWindow (some ⟨true⟩) true 0).xwindow_ ≠ x11.None
      ∧ FindChild (sampleDisplay 7)
          (sampleWindow (some ⟨true⟩) true 0).xwindow_ = some 7
      ∧ (sampleDisplay 7).XGetInputFocus = 7
      ∧ (sampleDisplay 7).XGetInputFocus
          ≠ (sampleWindow (some ⟨true⟩) true 0).xwindow_
      ∧ (sampleWindow (some ⟨true⟩) true 0).Focus (sampleDisplay 7)
          = some (sampleWindow (some ⟨true⟩) true 0, [])
      ∧ ((sampleWindow (some ⟨true⟩) true 0).Focus (sampleDisplay 7)).map
          (fun r => r.2.countP Call.isXSetInputFocus) ≠ some 1 := by
  refine ⟨rfl, by decide, rfl, rfl, by decide, rfl, ?_⟩
  have h : (sampleWindow (some ⟨true⟩) true 0).Focus (sampleDisplay 7)
      = some (sampleWindow (some ⟨true⟩) true 0, []) := rfl
  rw [h]
  simp

/-- C11, amended: for a mapped window record with a valid handle, `Focus`
depends on the owning browser. With an owner, if the embedded child exists,
is visible and does not already hold input focus, `Focus` sets input focus
to the child and stores the previous focus holder in the previously-focused
field only when that holder is not this window's own handle; with an owner
and any other state of the child it issues no request and changes no field.
Without an owner, `Focus` gives input focus to this window's own handle and
stores the previous holder, unless the handle already holds focus, in which
case it does nothing. -/
theorem Focus_by_owner (w : CefWindowX11) (d : XDisplay)
    (hvalid : w.xwindow_ ≠ x11.None) (hmapped : w.window_mapped_ = true) :
    (∀ b child, w.browser_ = some b → FindChild d w.xwindow_ = some child →
        (child ≠ x11.None ∧ d.XGetInputFocus ≠ child
            ∧ d.IsWindowVisible child = true →
          w.Focus d
            = some ({ w with
                      previously_focused_ :=
                        if d.XGetInputFocus ≠ w.xwindow_ then d.XGetInputFocus
                        else w.previously_focused_ },
                    [Call.XSetInputFocus child RevertToParent
                       x11.CurrentTime]))
        ∧ (¬ (child ≠ x11.None ∧ d.XGetInputFocus ≠ child
              ∧ d.IsWindowVisible child = true) →
            w.Focus d = some (w, [])))
      ∧ (w.browser_ = none →
          (d.XGetInputFocus ≠ w.xwindow_ →
            w.Focus d
              = some ({ w with previously_focused_ := d.XGetInputFocus },
                      [Call.XSetInputFocus w.xwindow_ RevertToParent
                         x11.CurrentTime]))
          ∧ (d.XGetInputFocus = w.xwindow_ → w.Focus d = some (w, []))) := by
  have hv : ¬ w.xwindow_ = 0 := hvalid
  refine ⟨?_, ?_⟩
  · intro b child hb hC
    refine ⟨?_, ?_⟩
    · intro hcase
      have hc : ¬ child = 0 := hcase.1
      have hf : ¬ d.XGetInputFocus = child := hcase.2.1
      unfold CefWindowX11.Focus
      simp only [hb, hC]
      by_cases hown : d.XGetInputFocus = w.xwindow_
      · have hf1 : ¬ w.xwindow_ = child := fun h => hf (hown.trans h)
        simp only [hv, hmapped, hc, hown, hf1, hcase.2.2, false_or,
          Bool.true_eq_false, if_false, Option.isSome_some, if_true, ne_eq,
          not_false_eq_true, and_self, not_true_eq_false]
        cases w
        simp_all
      · simp [hv, hmapped, hc, hf, hcase.2.2, hown]
    · intro hcase
      unfold CefWindowX11.Focus
      simp only [hb, hC]
      simp only [hv, hmapped, false_or, Bool.true_eq_false, if_false,
        Option.isSome_some, if_true]
      rw [if_neg hcase]
  · intro hb
    refine ⟨?_, ?_⟩
    · intro hown
      unfold CefWindowX11.Focus
      simp [hv, hmapped, hb, hown]
    · intro hown
      unfold CefWindowX11.Focus
      simp [hv, hmapped, hb, hown]

/-- C11, a worked case: the sample window with an owner while the other
top-level window `4` holds focus; focus goes to the child `7` and `4` is
remembered. -/
theorem Focus_by_owner_witness :
    (sampleWindow (some ⟨true⟩) true 0).xwindow_ ≠ x11.None
      ∧ (sampleWindow (some ⟨true⟩) true 0).window_mapped_ = true
      ∧ (sampleWindow (some ⟨true⟩) true 0).Focus (sampleDisplay 4)
          = some (sampleWindow (some ⟨true⟩) true 4,
              [Call.XSetInputFocus 7 RevertToParent x11.CurrentTime]) :=
  ⟨by decide, rfl,
   ((Focus_by_owner (sampleWindow (some ⟨true⟩) true 0) (sampleDisplay 4)
      (by decide) rfl).1 ⟨true⟩ 7 rfl rfl).1 ⟨by decide, by decide, rfl⟩⟩

/-! ## Forwarding the window-manager state -/

/-- C12: for a window record with an owning browser and an embedded child, a
`PropertyNotify` for `_NET_WM_STATE` writes the child's `_NET_WM_STATE`
exactly once and issues no other call: with the parent's atom list when that
list is read and is non-empty, and with a replace-mode `XChangeProperty` of
type `ATOM` and zero items when the parent's list is empty, so the empty case
is a recorded write and not the absence of one. The record is unchanged. -/
theorem state_change_forwarded_once (w : CefWindowX11) (d : XDisplay)
    (xev : XEvent) (b : CefBrowserHostImpl) (child : Window)
    (htype : xev.type = PropertyNotify)
    (hatom : xev.atom = d.GetAtom kNetWMState) (hb : w.browser_ = some b)
    (hC : FindChild d w.xwindow_ = some child) (hchild : child ≠ x11.None) :
    ∃ r, w.DispatchEvent d xev = some r
      ∧ r.self = w ∧ r.deleted = false
      ∧ r.calls.countP (Call.isPropertyWriteOn child) = 1
      ∧ r.calls.length = 1
      ∧ (∀ atom atoms,
          d.GetAtomArrayProperty w.xwindow_ kNetWMState = some (atom :: atoms) →
          r.calls
            = [Call.SetAtomArrayProperty child kNetWMState "ATOM"
                 (atom :: atoms)])
      ∧ (d.GetAtomArrayProperty w.xwindow_ kNetWMState = some [] →
          r.calls
            = [Call.XChangeProperty child (d.GetAtom kNetWMState)
                 (d.GetAtom kAtom) 32 PropModeReplace []]) := by
  refine ⟨_, DispatchEvent_state_forward w d xev b child htype hatom hb hC
    hchild, rfl, rfl, ?_, rfl, ?_, ?_⟩
  · unfold stateForwardCall
    split <;> simp [Call.isPropertyWriteOn]
  · intro atom atoms h
    simp [stateForwardCall, h]
  · intro h
    simp [stateForwardCall, h]

/-- C12, a worked case: the sample window whose state-atom list is empty. -/
theorem state_change_forwarded_once_witness :
    FindChild (sampleDisplayWithState (some []))
        (sampleWindow (some ⟨true⟩) true 0).xwindow_ = some 7
      ∧ ∃ r, (sampleWindow (some ⟨true⟩) true 0).DispatchEvent
            (sampleDisplayWithState (some [])) sampleStateEvent = some r
          ∧ r.calls = [Call.XChangeProperty 7 103 4 32 PropModeReplace []] := by
  refine ⟨rfl, ?_⟩
  obtain ⟨r, h1, _, _, _, _, _, h7⟩ :=
    state_change_forwarded_once (sampleWindow (some ⟨true⟩) true 0)
      (sampleDisplayWithState (some [])) sampleStateEvent ⟨true⟩ 7 rfl rfl rfl
      rfl (by decide)
  exact ⟨r, h1, h7 rfl⟩

/-- C13 as stated fails: on the sample display the read of the parent's
state-atom list fails, the child `7` is found, and `DispatchEvent` still
writes a property on the child (the empty list). -/
theorem state_read_failure_still_writes :
    (sampleDisplay 4).GetAtomArrayProperty
        (sampleWindow (some ⟨true⟩) true 0).xwindow_ kNetWMState = none
      ∧ (sampleWindow (some ⟨true⟩) true 0).DispatchEvent (sampleDisplay 4)
          sampleStateEvent
        = some { self := sampleWindow (some ⟨true⟩) true 0, deleted := false,
                 calls := [Call.XChangeProperty 7 103 4 32 PropModeReplace []],
                 result := POST_DISPATCH_STOP_PROPAGATION }
      ∧ [Call.XChangeProperty 7 103 4 32 PropModeReplace []].countP
          (Call.isPropertyWriteOn 7) ≠ 0 :=
  ⟨rfl, rfl, by decide⟩

/-- C13, amended: when the child-window lookup fails the forwarding is
skipped: for a `PropertyNotify` on `_NET_WM_STATE` no property is written,
and for a `ConfigureNotify` (addressed to the window, as the code asserts)
only the cached bounds are updated, no configure request is issued and the
owner is not notified. When the child is found but the read of the parent's
state-atom list fails, the child is written the empty list, as for an empty
list. In each case `DispatchEvent` returns the stop-propagation result and
does not delete the record. -/
theorem failed_lookup_skips_forwarding (w : CefWindowX11) (d : XDisplay)
    (xev : XEvent) :
    (xev.type = PropertyNotify → xev.atom = d.GetAtom kNetWMState →
        d.XQueryTree w.xwindow_ = none →
        w.DispatchEvent d xev
          = some { self := w, deleted := false, calls := [],
                   result := POST_DISPATCH_STOP_PROPAGATION })
      ∧ (∀ b child, xev.type = PropertyNotify →
          xev.atom = d.GetAtom kNetWMState → w.browser_ = some b →
          FindChild d w.xwindow_ = some child → child ≠ x11.None →
          d.GetAtomArrayProperty w.xwindow_ kNetWMState = none →
          w.DispatchEvent d xev
            = some { self := w, deleted := false,
                     calls := [Call.XChangeProperty child
                                 (d.GetAtom kNetWMState) (d.GetAtom kAtom) 32
                                 PropModeReplace []],
                     result := POST_DISPATCH_STOP_PROPAGATION })
      ∧ (xev.type = ConfigureNotify → xev.window = w.xwindow_ →
          xev.xconfigure_window = w.xwindow_ →
          d.XQueryTree w.xwindow_ = none →
          ∃ r, w.DispatchEvent d xev = some r
            ∧ r.self
                = { w with bounds_ := ⟨xev.x, xev.y, xev.width, xev.height⟩ }
            ∧ r.deleted = false
            ∧ r.calls = []
            ∧ r.calls.countP Call.isXConfigureWindow = 0
            ∧ r.calls.count Call.NotifyMoveOrResizeStarted = 0
            ∧ r.result = POST_DISPATCH_STOP_PROPAGATION) := by
  refine ⟨?_, ?_, ?_⟩
  · intro htype hatom hq
    exact DispatchEvent_state_no_child w d xev htype hatom
      (Or.inr (FindChild_query_failed d _ hq))
  · intro b child htype hatom hb hC hchild hread
    rw [DispatchEvent_state_forward w d xev b child htype hatom hb hC hchild]
    simp [stateForwardCall, hread]
  · intro htype hevent hwindow hq
    exact ⟨_, DispatchEvent_configure_no_child w d xev htype hevent hwindow
      (Or.inr (FindChild_query_failed d _ hq)), rfl, rfl, rfl, rfl, rfl, rfl⟩

/-- C13, a worked case: a window on a handle the sample display does not
know receives a `PropertyNotify` for `_NET_WM_STATE` and a
`ConfigureNotify`. -/
theorem failed_lookup_skips_forwarding_witness :
    (sampleDisplay 4).XQueryTree sampleLostWindow.xwindow_ = none
      ∧ sampleLostWindow.DispatchEvent (sampleDisplay 4)
          { sampleStateEvent with window := 8 }
        = some { self := sampleLostWindow, deleted := false, calls := [],
                 result := POST_DISPATCH_STOP_PROPAGATION }
      ∧ ∃ r, sampleLostWindow.DispatchEvent (sampleDisplay 4)
            { sampleConfigureEvent with window := 8, xconfigure_window := 8 }
          = some r
        ∧ r.calls = [] :=
  ⟨rfl,
   (failed_lookup_skips_forwarding sampleLostWindow (sampleDisplay 4)
      { sampleStateEvent with window := 8 }).1 rfl rfl rfl,
   by
     obtain ⟨r, h1, _, _, h4, _⟩ :=
       (failed_lookup_skips_forwarding sampleLostWindow (sampleDisplay 4)
          { sampleConfigureEvent with window := 8, xconfigure_window := 8 }).2.2
         rfl rfl rfl rfl
     exact ⟨r, h1, h4⟩⟩

/-! ## Answering the liveness ping -/

/-- C14 as stated fails: the sample window was created under window `3`, the
display's root window is `1`, and the reply to a `_NET_WM_PING` is sent to
`3`; no event is sent to the root window. -/
theorem ping_reply_not_to_root :
    (sampleDisplay 4).DefaultRootWindow = 1
      ∧ (sampleWindow (some ⟨true⟩) true 0).parent_xwindow_ = 3
      ∧ (sampleWindow (some ⟨true⟩) true 0).DispatchEvent (sampleDisplay 4)
          samplePingEvent
        = some { self := sampleWindow (some ⟨true⟩) true 0, deleted := false,
                 calls := [Call.XSendEvent 3 false
                             (SubstructureRedirectMask ||| SubstructureNotifyMask)
                             { samplePingEvent with window := 3 },
                           Call.XFlush],
                 result := POST_DISPATCH_STOP_PROPAGATION }
      ∧ [Call.XSendEvent 3 false
           (SubstructureRedirectMask ||| SubstructureNotifyMask)
           { samplePingEvent with window := 3 },
         Call.XFlush].countP (Call.isXSendEventTo 1) = 0 :=
  ⟨rfl, rfl, rfl, by decide⟩

/-- C14, amended: for every window record, a `WM_PROTOCOLS` `ClientMessage`
whose first data word is `_NET_WM_PING` sends exactly one reply event, to the
window's parent handle, which is the display's root window when the window
was constructed without a parent of its own; the reply is a copy of the
received event in which only the window field is changed, to the parent
handle; the record itself is left unchanged. (`_NET_WM_PING` and
`WM_DELETE_WINDOW` are distinct atoms.) -/
theorem ping_echoed_to_parent (w : CefWindowX11) (d : XDisplay)
    (xev : XEvent) (htype : xev.type = ClientMessage)
    (hmsg : xev.message_type = d.GetAtom kWMProtocols)
    (hproto : xev.data_l.getD 0 0 = d.GetAtom kNetWMPing)
    (hdistinct : d.GetAtom kNetWMPing ≠ d.GetAtom kWMDeleteWindow) :
    ∃ r, w.DispatchEvent d xev = some r
      ∧ r.self = w ∧ r.deleted = false
      ∧ r.calls
          = [Call.XSendEvent w.parent_xwindow_ false
               (SubstructureRedirectMask ||| SubstructureNotifyMask)
               { xev with window := w.parent_xwindow_ },
             Call.XFlush]
      ∧ r.calls.countP Call.isXSendEvent = 1
      ∧ r.calls.countP (Call.isXSendEventTo w.parent_xwindow_) = 1
      ∧ (∀ browser bounds d0 calls,
          CefWindowX11.new browser x11.None bounds d0 = some (w, calls) →
          w.parent_xwindow_ = d0.DefaultRootWindow
            ∧ r.calls.countP (Call.isXSendEventTo d0.DefaultRootWindow) = 1) := by
  refine ⟨_, DispatchEvent_ping w d xev htype hmsg hproto hdistinct, rfl, rfl,
    rfl, ?_, ?_, ?_⟩
  · simp [Call.isXSendEvent]
  · simp [Call.isXSendEventTo]
  · intro browser bounds d0 calls hnew
    have hparent := CefWindowX11.new_default_parent browser bounds d0 w calls
      hnew
    refine ⟨hparent, ?_⟩
    rw [← hparent]
    simp [Call.isXSendEventTo]

/-- C14, a worked case: the sample window answers a ping. -/
theorem ping_echoed_to_parent_witness :
    (sampleDisplay 4).GetAtom kNetWMPing
        ≠ (sampleDisplay 4).GetAtom kWMDeleteWindow
      ∧ ∃ r, (sampleWindow none true 0).DispatchEvent (sampleDisplay 4)
            samplePingEvent = some r
          ∧ r.calls.countP Call.isXSendEvent = 1 := by
  refine ⟨by decide, ?_⟩
  obtain ⟨r, h1, _, _, _, h5, _⟩ :=
    ping_echoed_to_parent (sampleWindow none true 0) (sampleDisplay 4)
      samplePingEvent rfl rfl rfl (by decide)
  exact ⟨r, h1, h5⟩

/-! ## Bounds in screen coordinates -/

/-- C15: `GetBoundsInScreen` returns, when the translation of the window's
local origin `(0, 0)` to the root window succeeds, the rectangle at the
translated origin with the size of the cached bounds, and the empty
rectangle (origin `(0, 0)`, size `0 x 0`) when the translation fails; it
changes no field of the record in either case. -/
theorem GetBoundsInScreen_translated_or_empty (w : CefWindowX11)
    (d : XDisplay) :
    (∀ x y,
        d.XTranslateCoordinates w.xwindow_ d.DefaultRootWindow 0 0
          = some (x, y) →
        (w.GetBoundsInScreen d).2 = ⟨x, y, w.bounds_.width, w.bounds_.height⟩
          ∧ (w.GetBoundsInScreen d).2.origin = (x, y)
          ∧ (w.GetBoundsInScreen d).2.size = w.bounds_.size)
      ∧ (d.XTranslateCoordinates w.xwindow_ d.DefaultRootWindow 0 0 = none →
          (w.GetBoundsInScreen d).2 = ⟨0, 0, 0, 0⟩)
      ∧ (w.GetBoundsInScreen d).1 = w := by
  refine ⟨?_, ?_, ?_⟩
  · intro x y h
    simp [CefWindowX11.GetBoundsInScreen, h, Rect.size, Rect.origin]
  · intro h
    simp [CefWindowX11.GetBoundsInScreen, h, Rect.empty]
  · unfold CefWindowX11.GetBoundsInScreen
    split <;> rfl

/-- C15, a worked case: on the sample display the origin translates to
itself, so the sample window's screen bounds are `300 x 200` at `(0, 0)`. -/
theorem GetBoundsInScreen_translated_or_empty_witness :
    ((sampleWindow none true 0).GetBoundsInScreen (sampleDisplay 4)).2
      = ⟨0, 0, 300, 200⟩ :=
  ((GetBoundsInScreen_translated_or_empty (sampleWindow none true 0)
      (sampleDisplay 4)).1 0 0 rfl).1

/-! ## The top-level ancestor -/

/-- C16: on a window tree under the display's root window, for every window
`w` below the root (so `w` is valid and is not the root), `FindToplevelParent`
returns whenever `fuel` exceeds the depth of `w`, and what it returns is an
ancestor-or-self of `w` whose parent is the root window, the only one there
is; and when the very first tree query on a window fails,
`FindToplevelParent` returns that window itself. -/
theorem FindToplevelParent_returns_toplevel (d : XDisplay)
    (depth : Window → Nat) (htree : d.IsWindowTree depth) (w : Window)
    (hin : d.IsProperDescendant w d.DefaultRootWindow) (fuel : Nat)
    (hfuel : depth w < fuel) :
    w ≠ d.DefaultRootWindow
      ∧ (∃ top, FindToplevelParent fuel d w = some top
          ∧ (∃ j, d.nthAncestor j w = some top)
          ∧ d.parentOf top = some d.DefaultRootWindow
          ∧ ∀ a, (∃ j, d.nthAncestor j w = some a) →
              d.parentOf a = some d.DefaultRootWindow → a = top)
      ∧ (∀ w1 n, d.XQueryTree w1 = none →
          FindToplevelParent (n + 1) d w1 = some w1) := by
  refine ⟨?_, ?_, ?_⟩
  · intro h
    rw [h] at hin
    exact htree.not_descendant_self _ hin
  · obtain ⟨top, j, h1, h2, h3⟩ :=
      FindToplevelParent.loop_toplevel htree fuel w w hin hfuel
    refine ⟨top, h1, ⟨j, h2⟩, h3, ?_⟩
    rintro a ⟨i, hi⟩ hpa
    rcases Nat.le_total i j with hij | hji
    · obtain ⟨m, rfl⟩ := Nat.exists_eq_add_of_le hij
      exact htree.toplevel_unique w a top i m hi h2 hpa h3
    · obtain ⟨m, rfl⟩ := Nat.exists_eq_add_of_le hji
      exact (htree.toplevel_unique w top a j m h2 hi h3 hpa).symm
  · intro w1 n hq
    simp [FindToplevelParent, FindToplevelParent.loop, hq]

/-- C16, a worked case: on the sample display the top-level ancestor of the
window `7` is `3`. -/
theorem FindToplevelParent_returns_toplevel_witness :
    (sampleDisplay 4).IsWindowTree sampleDepth
      ∧ (sampleDisplay 4).IsProperDescendant 7 (sampleDisplay 4).DefaultRootWindow
      ∧ FindToplevelParent 5 (sampleDisplay 4) 7 = some 3
      ∧ ∃ top, FindToplevelParent 5 (sampleDisplay 4) 7 = some top
          ∧ (sampleDisplay 4).parentOf top
              = some (sampleDisplay 4).DefaultRootWindow := by
  have hin : (sampleDisplay 4).IsProperDescendant 7
      (sampleDisplay 4).DefaultRootWindow := ⟨2, rfl⟩
  refine ⟨sampleDisplay_isWindowTree 4, hin, rfl, ?_⟩
  obtain ⟨_, ⟨top, h1, _, h3, _⟩, _⟩ :=
    FindToplevelParent_returns_toplevel (sampleDisplay 4) sampleDepth
      (sampleDisplay_isWindowTree 4) 7 hin 5 (by decide)
  exact ⟨top, h1, h3⟩

end CefX11
